import Mathlib

/-
Verification of the remediation-status consistency engine
(src/source/layer/remediation_data_service.py, history_repository.py,
findings_repository.py) against its natural-language specification.

The DynamoDB items are modelled as association lists of attribute values,
the two tables as association lists keyed by (partition key, sort key),
and the transactional-write primitive by its conditional-write contract:
all conditions are evaluated against the current state; if every condition
holds the writes are applied in order, otherwise a TransactionCanceledException
carrying one cancellation-reason code per item is produced.
-/

set_option autoImplicit false

/-- A DynamoDB attribute value: a string value (the {"S": ...} shape) or a
numeric value carried as its decimal string (the {"N": ...} shape). -/
inductive AttrVal
  | S (s : String)
  | N (n : String)
deriving DecidableEq, Repr

/-- A DynamoDB item: an attribute-name/value dictionary. -/
abbrev AttrMap := List (String × AttrVal)

/-- Dictionary lookup (item.get(k) / item[k]). -/
def getAttr : AttrMap → String → Option AttrVal
  | [], _ => none
  | (k0, v) :: rest, k => if k0 = k then some v else getAttr rest k

/-- Dictionary assignment item[k] = v: replaces the value in place when the
key is present, appends a new entry otherwise. -/
def setAttr : AttrMap → String → AttrVal → AttrMap
  | [], k, v => [(k, v)]
  | (k0, v0) :: rest, k, v =>
      if k0 = k then (k, v) :: rest else (k0, v0) :: setAttr rest k v

/-- Python truthiness of an optional string: None and the empty string are
falsy, every other string is truthy. -/
def truthy : Option String → Bool
  | none => false
  | some s => !s.isEmpty

/-- Python `x or default` for an optional string field. -/
def pyOr : Option String → String → String
  | none, d => d
  | some s, d => if s.isEmpty then d else s

/-! ### Calendar arithmetic

Models the parts of Python `datetime` used by `calculate_ttl_timestamp`:
`datetime.fromisoformat` on the strings the engine produces
(`YYYY-MM-DDTHH:MM:SS[.ffffff]` with a trailing `Z` replaced by `+00:00`),
timedelta addition in whole days, and `.timestamp()` on an aware UTC
datetime (the POSIX epoch seconds of the instant). -/

/-- A timezone-aware UTC datetime, to whole microseconds truncated away
(the engine only reads `int(dt.timestamp())`, which drops the fraction). -/
structure DateTime where
  year : Nat
  month : Nat
  day : Nat
  hour : Nat
  minute : Nat
  second : Nat
deriving DecidableEq, Repr

def isLeap (y : Nat) : Bool :=
  y % 4 == 0 && (y % 100 != 0 || y % 400 == 0)

def daysInMonth (y m : Nat) : Nat :=
  if m = 2 then (if isLeap y then 29 else 28)
  else if m = 4 ∨ m = 6 ∨ m = 9 ∨ m = 11 then 30
  else 31

/-- Days in all years strictly before year `y` (proleptic Gregorian,
year 1 onward), as in Python `date.toordinal`. -/
def daysBeforeYear (y : Nat) : Nat :=
  365 * (y - 1) + (y - 1) / 4 - (y - 1) / 100 + (y - 1) / 400

/-- Days in all months of year `y` strictly before month `m`. -/
def daysBeforeMonth (y m : Nat) : Nat :=
  (List.range (m - 1)).foldl (fun acc i => acc + daysInMonth y (i + 1)) 0

/-- Python `date(y, m, d).toordinal()`: day number with 0001-01-01 = 1. -/
def toOrdinal (y m d : Nat) : Nat :=
  daysBeforeYear y + daysBeforeMonth y m + d

/-- `.timestamp()` of an aware UTC datetime: POSIX epoch seconds.
719163 is the ordinal of 1970-01-01. -/
def epochOf (dt : DateTime) : Int :=
  ((toOrdinal dt.year dt.month dt.day : Int) - 719163) * 86400
    + (dt.hour : Int) * 3600 + (dt.minute : Int) * 60 + (dt.second : Int)

/-- Splits a character list on a separator, like str.split. -/
def splitOnChar (sep : Char) : List Char → List (List Char)
  | [] => [[]]
  | c :: rest =>
      let r := splitOnChar sep rest
      if c = sep then [] :: r
      else
        match r with
        | [] => [[c]]
        | g :: gs => (c :: g) :: gs

/-- Parses a non-empty all-digit character list as a decimal Nat. -/
def digitsToNat? (cs : List Char) : Option Nat :=
  if cs ≠ [] ∧ cs.all (fun c => c.isDigit) then
    some (cs.foldl (fun n c => n * 10 + (c.toNat - 48)) 0)
  else none

/-- Models `timestamp.replace("Z", "+00:00")`: every occurrence of the
one-character pattern is replaced. -/
def replaceZ (s : String) : List Char :=
  s.data.foldl
    (fun acc c => if c = 'Z' then acc ++ ['+', '0', '0', ':', '0', '0'] else acc ++ [c]) []

/-- Requires and strips a trailing `+00:00` UTC offset. A naive timestamp
(no offset) is not modelled: Python would parse it and `.timestamp()` would
then depend on the ambient local timezone; the engine never produces one. -/
def stripUtcOffset (cs : List Char) : Option (List Char) :=
  if cs.length ≥ 6 ∧ cs.drop (cs.length - 6) = ['+', '0', '0', ':', '0', '0'] then
    some (cs.take (cs.length - 6))
  else none

/-- Parses the seconds field `SS` or `SS.ffffff`; the fractional part is
validated but discarded (`int(...timestamp())` truncates it away). -/
def parseSeconds (cs : List Char) : Option Nat :=
  match splitOnChar '.' cs with
  | [ss] => if ss.length = 2 then digitsToNat? ss else none
  | [ss, frac] =>
      if ss.length = 2 ∧ frac ≠ [] ∧ frac.all (fun c => c.isDigit) then digitsToNat? ss
      else none
  | _ => none

/-- Models `datetime.fromisoformat(timestamp.replace("Z", "+00:00"))` on the
timestamp shapes this engine produces: `YYYY-MM-DDTHH:MM:SS[.ffffff]`
followed by `Z` or `+00:00`. Any other string is mapped to `none`,
modelling the raised ValueError. -/
def parseIsoZ (s : String) : Option DateTime :=
  match stripUtcOffset (replaceZ s) with
  | none => none
  | some core =>
      match splitOnChar 'T' core with
      | [datePart, timePart] =>
          match splitOnChar '-' datePart, splitOnChar ':' timePart with
          | [ys, ms, ds], [hs, mins, ss] =>
              if ys.length = 4 ∧ ms.length = 2 ∧ ds.length = 2 ∧ hs.length = 2
                  ∧ mins.length = 2 then
                match digitsToNat? ys, digitsToNat? ms, digitsToNat? ds,
                    digitsToNat? hs, digitsToNat? mins, parseSeconds ss with
                | some y, some mo, some da, some h, some mi, some sec =>
                    if 1 ≤ y ∧ 1 ≤ mo ∧ mo ≤ 12 ∧ 1 ≤ da ∧ da ≤ daysInMonth y mo
                        ∧ h ≤ 23 ∧ mi ≤ 59 ∧ sec ≤ 59 then
                      some ⟨y, mo, da, h, mi, sec⟩
                    else none
                | _, _, _, _, _, _ => none
              else none
          | _, _ => none
      | _ => none

/-- Default of `int(os.getenv("HISTORY_TTL_DAYS", "365"))`. -/
def HISTORY_TTL_DAYS_default : Int := 365

/-- `calculate_ttl_timestamp` from history_repository.py. `ttlDays` models
`int(os.getenv("HISTORY_TTL_DAYS", "365"))`. For an aware UTC datetime,
`dt + timedelta(days=d)` followed by `int(ttl_dt.timestamp())` equals the
epoch seconds of `dt` plus `d * 86400` (timedelta days are exactly 86400
seconds). A parse failure (ValueError) is modelled as `none`. -/
def calculate_ttl_timestamp (ttlDays : Int) (timestamp : String) : Option Int :=
  (parseIsoZ timestamp).map (fun dt => epochOf dt + ttlDays * 86400)

/-! ### The update request -/

/-- `RemediationUpdateRequest` from history_repository.py. Optional string
fields default to None; `lastUpdatedBy` defaults to "Automated". -/
structure RemediationUpdateRequest where
  finding_id : String
  execution_id : String
  remediation_status : String
  finding_type : String
  error : Option String := none
  resource_id : Option String := none
  resource_type : Option String := none
  account_id : Option String := none
  severity : Option String := none
  region : Option String := none
  lastUpdatedBy : Option String := some "Automated"
deriving DecidableEq, Repr

/-- `RemediationUpdateRequest.validate`: false iff any of the three
identifying fields is empty (after logging at error level). -/
def RemediationUpdateRequest.validate (r : RemediationUpdateRequest) : Bool :=
  if r.finding_id.isEmpty || r.execution_id.isEmpty || r.finding_type.isEmpty then
    false
  else
    true

/-! ### The store model

The two tables, keyed respectively by (findingType, findingId) and by
(findingType, findingId#executionId), and the conditional-write and
transactional-write contract the engine consumes. -/

/-- A primary key: (partition key value, sort key value). -/
abbrev Key := String × String

/-- A table: items addressed by primary key. -/
abbrev Table := List (Key × AttrMap)

/-- GetItem: the item stored at a key, if any. -/
def Table.getItem : Table → Key → Option AttrMap
  | [], _ => none
  | (k0, v) :: rest, k => if k0 = k then some v else Table.getItem rest k

/-- PutItem: replaces the item at the key, or adds it when absent. -/
def Table.putItem : Table → Key → AttrMap → Table
  | [], k, v => [(k, v)]
  | (k0, v0) :: rest, k, v =>
      if k0 = k then (k, v) :: rest else (k0, v0) :: Table.putItem rest k v

/-- Number of records stored under a key. -/
def Table.keyCount : Table → Key → Nat
  | [], _ => 0
  | (k0, _) :: rest, k => (if k0 = k then 1 else 0) + Table.keyCount rest k

inductive TableName
  | findings
  | history
deriving DecidableEq, Repr

/-- The attribute names of a table's partition and sort keys. -/
def keyAttrNames : TableName → String × String
  | TableName.findings => ("findingType", "findingId")
  | TableName.history => ("findingType", "findingId#executionId")

/-- A ConditionExpression over the written item's own key attributes:
`attribute_exists(pk) AND attribute_exists(sk)` holds exactly when an item
already exists at the key (a stored item always carries its key attributes),
and `attribute_not_exists(pk) AND attribute_not_exists(sk)` when none does. -/
inductive CondExpr
  | noCond
  | attrExists
  | attrNotExists
deriving DecidableEq, Repr

/-- An Update transact item: target table and key, the SET assignments of its
UpdateExpression in order, and its condition. -/
structure UpdateSpec where
  table : TableName
  key : Key
  assignments : List (String × AttrVal)
  cond : CondExpr
deriving DecidableEq, Repr

/-- A Put transact item: target table, the full item, and its condition. -/
structure PutSpec where
  table : TableName
  item : AttrMap
  cond : CondExpr
deriving DecidableEq, Repr

inductive WriteItem
  | update (u : UpdateSpec)
  | put (p : PutSpec)
deriving DecidableEq, Repr

/-- The error shape of a raised botocore ClientError, as read by the engine:
`e.response["Error"]["Code"]` and the per-item
`e.response["CancellationReasons"][i]["Code"]` strings. -/
structure ClientError where
  code : String
  cancellationReasons : List String := []
deriving DecidableEq, Repr

/-- A raised Python exception: a botocore ClientError or anything else
(e.g. the ValueError of a failed fromisoformat). -/
inductive PyError
  | clientError (e : ClientError)
  | otherError (msg : String)
deriving DecidableEq, Repr

/-- The two tables of the store. -/
structure Store where
  findings : Table
  history : Table
deriving DecidableEq, Repr

def Store.getTable (s : Store) : TableName → Table
  | TableName.findings => s.findings
  | TableName.history => s.history

def Store.setTable (s : Store) : TableName → Table → Store
  | TableName.findings, t => ⟨t, s.history⟩
  | TableName.history, t => ⟨s.findings, t⟩

/-- The string value of an attribute, defaulting to "". -/
def strAttrD (m : AttrMap) (k : String) : String :=
  match getAttr m k with
  | some (AttrVal.S s) => s
  | some (AttrVal.N n) => n
  | none => ""

def WriteItem.tbl : WriteItem → TableName
  | WriteItem.update u => u.table
  | WriteItem.put p => p.table

def WriteItem.cond : WriteItem → CondExpr
  | WriteItem.update u => u.cond
  | WriteItem.put p => p.cond

/-- The primary key a write addresses: an Update names it explicitly, a Put
carries it inside the written item. -/
def WriteItem.wkey : WriteItem → Key
  | WriteItem.update u => u.key
  | WriteItem.put p =>
      (strAttrD p.item (keyAttrNames p.table).1, strAttrD p.item (keyAttrNames p.table).2)

/-- Whether a write's condition holds in the current state. -/
def condHolds (s : Store) (w : WriteItem) : Bool :=
  match w.cond with
  | CondExpr.noCond => true
  | CondExpr.attrExists => ((s.getTable w.tbl).getItem w.wkey).isSome
  | CondExpr.attrNotExists => ((s.getTable w.tbl).getItem w.wkey).isNone

/-- Applies the SET assignments of an UpdateExpression, in order. -/
def applyAssignments (m : AttrMap) (assigns : List (String × AttrVal)) : AttrMap :=
  assigns.foldl (fun acc kv => setAttr acc kv.1 kv.2) m

/-- Applies one write. An unconditional Update on an absent item creates it
from its key attributes (the DynamoDB upsert); a Put stores the item whole. -/
def applyWrite (s : Store) (w : WriteItem) : Store :=
  match w with
  | WriteItem.put p =>
      s.setTable p.table
        ((s.getTable p.table).putItem (WriteItem.wkey (WriteItem.put p)) p.item)
  | WriteItem.update u =>
      let t := s.getTable u.table
      let base :=
        match t.getItem u.key with
        | some m => m
        | none => [((keyAttrNames u.table).1, AttrVal.S u.key.1),
                   ((keyAttrNames u.table).2, AttrVal.S u.key.2)]
      s.setTable u.table (t.putItem u.key (applyAssignments base u.assignments))

/-- `dynamodb.transact_write_items`: every condition is checked against the
current state; if all hold the writes apply atomically in order, otherwise
nothing is written and a TransactionCanceledException reports one reason per
item — "ConditionalCheckFailed" for each item whose condition failed,
"None" for the rest. -/
def transact_write_items (s : Store) (items : List WriteItem) : Except ClientError Store :=
  if items.all (fun w => condHolds s w) then
    Except.ok (items.foldl applyWrite s)
  else
    Except.error
      { code := "TransactionCanceledException",
        cancellationReasons :=
          items.map (fun w => if condHolds s w then "None" else "ConditionalCheckFailed") }


/-! ### findings_repository.py -/

/-- `findings_repository.get`: GetItem on the Findings table.
`readFault` models the `except Exception` branch: when the underlying call
raises, the error is logged at warning level and the function returns None
instead of propagating. -/
def FindingsRepository.get (readFault : Bool) (s : Store)
    (finding_type finding_id : String) : Option AttrMap :=
  if readFault then none
  else Table.getItem s.findings (finding_type, finding_id)

/-- `findings_repository.build_update_item`: an unconditional Update on the
Findings table setting remediationStatus, plus executionId when non-empty and
error when truthy (the `#err` ExpressionAttributeName resolves to the
attribute "error"). Note: it carries no ConditionExpression. -/
def FindingsRepository.build_update_item (finding_type finding_id remediation_status
    execution_id : String) (error : Option String) : WriteItem :=
  let assigns := [("remediationStatus", AttrVal.S remediation_status)]
  let assigns :=
    if execution_id.isEmpty then assigns
    else assigns ++ [("executionId", AttrVal.S execution_id)]
  let assigns :=
    if truthy error then assigns ++ [("error", AttrVal.S (error.getD ""))] else assigns
  WriteItem.update
    ⟨TableName.findings, (finding_type, finding_id), assigns, CondExpr.noCond⟩

/-- `findings_repository.update`: a single non-transactional
`dynamodb.update_item` with the descriptor above. -/
def FindingsRepository.update (s : Store) (finding_type finding_id remediation_status
    execution_id : String) (error : Option String) : Store :=
  applyWrite s
    (FindingsRepository.build_update_item finding_type finding_id remediation_status
      execution_id error)

/-- The `field_mappings` list of `extract_partial_finding_data`. -/
def field_mappings : List String :=
  ["accountId", "resourceId", "resourceType", "resourceTypeNormalized",
   "severity", "region", "lastUpdatedBy"]

/-- The field loop of `extract_partial_finding_data`: each listed field
present on the item is read as `item[field]["S"]`; a present field that is
not string-typed raises a KeyError, modelled as `none`. -/
def extractFields : List String → AttrMap → Option (List (String × String))
  | [], _ => some []
  | f :: fs, item =>
      match getAttr item f with
      | none => extractFields fs item
      | some (AttrVal.S s) => (extractFields fs item).map (fun r => (f, s) :: r)
      | some (AttrVal.N _) => none

/-- `findings_repository.extract_partial_finding_data` (the name is adjusted
for Lean): the harvested subset of a Finding item, in `field_mappings`
order. -/
def extractPartialFindingData (item : AttrMap) : Option (List (String × String)) :=
  extractFields field_mappings item

/-! ### history_repository.py -/

/-- The sort-key value `f"{finding_id}#{execution_id}"`. -/
def sortKeyOf (finding_id execution_id : String) : String :=
  finding_id ++ "#" ++ execution_id

/-- The History-table primary key addressed by a request. -/
def histKey (r : RemediationUpdateRequest) : Key :=
  (r.finding_type, sortKeyOf r.finding_id r.execution_id)

/-- `history_repository.build_update_item`: an Update on the History table
setting remediationStatus, plus error when truthy, conditioned on
`attribute_exists(findingType) AND attribute_exists(#sortKey)`. -/
def HistoryRepository.build_update_item (finding_id execution_id remediation_status
    finding_type : String) (error : Option String) : WriteItem :=
  let assigns := [("remediationStatus", AttrVal.S remediation_status)]
  let assigns :=
    if truthy error then assigns ++ [("error", AttrVal.S (error.getD ""))] else assigns
  WriteItem.update
    ⟨TableName.history, (finding_type, sortKeyOf finding_id execution_id), assigns,
      CondExpr.attrExists⟩

/-- The six `if request.x: item[...] = {"S": ...}` statements of
`build_create_item`, applied in order: each optional attribute is added only
when the request field is truthy (non-empty, non-None). -/
def condSets (item : AttrMap) : List (String × Option String) → AttrMap
  | [] => item
  | (k, v) :: rest =>
      condSets (if truthy v then setAttr item k (AttrVal.S (v.getD "")) else item) rest

/-- The optional attributes of `build_create_item`, in source order:
the five GSI attributes, then error. -/
def optionalAttrPairs (request : RemediationUpdateRequest) : List (String × Option String) :=
  [("accountId", request.account_id), ("resourceId", request.resource_id),
   ("resourceType", request.resource_type), ("severity", request.severity),
   ("region", request.region), ("error", request.error)]

/-- The `for field, value in extra_fields.items(): item[field] = {"S": value}`
loop (running it on an empty dictionary is a no-op, so the `if extra_fields:`
truthiness guard needs no separate case). -/
def applyStrFields (item : AttrMap) (fields : List (String × String)) : AttrMap :=
  fields.foldl (fun acc kv => setAttr acc kv.1 (AttrVal.S kv.2)) item

/-- The initial `item` dictionary literal of `build_create_item`
(`sort_key` is `f"{finding_id}#{execution_id}"`). -/
def historyBaseItem (ttl : Int) (now : String)
    (request : RemediationUpdateRequest) : AttrMap :=
  [("findingType", AttrVal.S request.finding_type),
   ("findingId", AttrVal.S request.finding_id),
   ("findingId#executionId",
      AttrVal.S (sortKeyOf request.finding_id request.execution_id)),
   ("executionId", AttrVal.S request.execution_id),
   ("remediationStatus", AttrVal.S request.remediation_status),
   ("lastUpdatedTime", AttrVal.S now),
   ("lastUpdatedTime#findingId", AttrVal.S (now ++ "#" ++ request.finding_id)),
   ("REMEDIATION_CONSTANT", AttrVal.S "remediation"),
   ("lastUpdatedBy", AttrVal.S (pyOr request.lastUpdatedBy "Automated")),
   ("expireAt", AttrVal.N (toString ttl))]

/-- The item of `build_create_item` after the conditional optional-attribute
assignments, before the extra-field merge. -/
def historyItemNoExtra (ttl : Int) (now : String)
    (request : RemediationUpdateRequest) : AttrMap :=
  condSets (historyBaseItem ttl now request) (optionalAttrPairs request)

/-- The final item of `build_create_item`: the extra fields, when present,
are merged last (`item[field] = {"S": value}` for each). -/
def historyCreateItem (ttl : Int) (now : String)
    (request : RemediationUpdateRequest)
    (extra_fields : Option (List (String × String))) : AttrMap :=
  match extra_fields with
  | some efs => applyStrFields (historyItemNoExtra ttl now request) efs
  | none => historyItemNoExtra ttl now request

/-- `history_repository.build_create_item`: the conditional Put of a new
History item. `now` models `datetime.utcnow().isoformat() + "Z"`; a
ValueError from `calculate_ttl_timestamp` (unparseable timestamp) is
modelled as `none`. The condition is
`attribute_not_exists(findingType) AND attribute_not_exists(#sortKey)`. -/
def HistoryRepository.build_create_item (ttlDays : Int) (now : String)
    (request : RemediationUpdateRequest)
    (extra_fields : Option (List (String × String))) : Option WriteItem :=
  match calculate_ttl_timestamp ttlDays now with
  | none => none
  | some ttl =>
      some (WriteItem.put
        ⟨TableName.history, historyCreateItem ttl now request extra_fields,
          CondExpr.attrNotExists⟩)

/-- The transact-item list of `transact_update_finding_and_history`:
the Finding update first, the conditional History update second. -/
def HistoryRepository.transact_update_items (finding_type finding_id execution_id
    remediation_status : String) (error : Option String) : List WriteItem :=
  [FindingsRepository.build_update_item finding_type finding_id remediation_status
     execution_id error,
   HistoryRepository.build_update_item finding_id execution_id remediation_status
     finding_type error]

/-- `history_repository.transact_update_finding_and_history`. -/
def HistoryRepository.transact_update_finding_and_history (s : Store)
    (finding_type finding_id execution_id remediation_status : String)
    (error : Option String) : Except ClientError Store :=
  transact_write_items s
    (HistoryRepository.transact_update_items finding_type finding_id execution_id
      remediation_status error)

/-- `history_repository.transact_create_history_and_update_finding`: the
Finding update (when requested) followed by the conditional History create.
A ValueError raised while building the create item propagates. -/
def HistoryRepository.transact_create_history_and_update_finding (ttlDays : Int)
    (now : String) (s : Store) (request : RemediationUpdateRequest)
    (extra_fields : Option (List (String × String)))
    (include_finding_update : Bool) : Except PyError Store :=
  match HistoryRepository.build_create_item ttlDays now request extra_fields with
  | none => Except.error (PyError.otherError "ValueError")
  | some createItem =>
      let items :=
        (if include_finding_update then
          [FindingsRepository.build_update_item request.finding_type request.finding_id
             request.remediation_status request.execution_id request.error]
        else []) ++ [createItem]
      match transact_write_items s items with
      | Except.ok s1 => Except.ok s1
      | Except.error e => Except.error (PyError.clientError e)

/-! ### remediation_data_service.py -/

/-- `map_remediation_status`. `failureReasonKeys` models
`list(NORMALIZED_STATUS_REASON_MAPPING.keys())` imported from layer/metrics.py
(that module is not part of the sources here; the spec describes it only as a
configured set of known failure-reason codes, so it is kept abstract).
`String.toUpper` models `str.upper()` on the ASCII status vocabulary. -/
def map_remediation_status (failureReasonKeys : List String)
    (status : Option String) : String :=
  match status with
  | none => "NOT_STARTED"
  | some st =>
      if st.isEmpty then "NOT_STARTED"
      else
        let status_upper := st.toUpper
        if status_upper = "SUCCESS" ∨ status_upper = "NOT_STARTED" then status_upper
        else if status_upper = "QUEUED" ∨ status_upper = "RUNNING"
            ∨ status_upper = "IN_PROGRESS" then "IN_PROGRESS"
        else if status_upper ∈ failureReasonKeys then "FAILED"
        else "FAILED"

/-- `get_finding_data`: looks the Finding item up and extracts the partial
data. `if not item: return None` also fires on an empty item. A KeyError
raised inside the extraction surfaces to the caller, which treats every
raise the same way as a None result (see create_history_with_finding_update),
so both are modelled as `none`. -/
def get_finding_data (readFault : Bool) (s : Store)
    (finding_type finding_id : String) : Option (List (String × String)) :=
  match FindingsRepository.get readFault s finding_type finding_id with
  | none => none
  | some item => if item.isEmpty then none else extractPartialFindingData item

/-- The `except ClientError` branch of `try_update_with_existing_history`:
on a TransactionCanceledException whose cancellation reasons contain at least
one "ConditionalCheckFailed" entry - at any item position - the function
returns False (fall through to the create path); every other error is
re-raised (`none`). -/
def tier1_error_decision (e : ClientError) : Option Bool :=
  if e.code = "TransactionCanceledException" then
    if e.cancellationReasons.any (fun r => r = "ConditionalCheckFailed") then some false
    else none
  else none

/-- `try_update_with_existing_history`: attempts the Tier-1 dual update and
returns True on success, False when the error handler elects the fallback,
re-raising otherwise. The store is unchanged when the transaction fails. -/
def try_update_with_existing_history (s : Store) (request : RemediationUpdateRequest) :
    Except ClientError (Bool × Store) :=
  match HistoryRepository.transact_update_finding_and_history s request.finding_type
      request.finding_id request.execution_id request.remediation_status request.error with
  | Except.ok s1 => Except.ok (true, s1)
  | Except.error e =>
      match tier1_error_decision e with
      | some b => Except.ok (b, s)
      | none => Except.error e

/-- The `extra_fields` dictionary comprehension of
`create_history_with_finding_update`: the harvested finding fields minus the
six named ones (`str(v)` on a string is the identity). -/
def coordinator_extra_fields (finding_data : List (String × String)) :
    List (String × String) :=
  finding_data.filter (fun kv =>
    kv.1 ∉ ["accountId", "resourceId", "resourceType", "severity", "region",
            "lastUpdatedBy"])

/-- `update_finding_only`: a single unconditional non-transactional update of
the Finding record. `updateFault` models a raise from `update_item`; such an
error is logged and re-raised with no further fallback. -/
def update_finding_only (updateFault : Option ClientError) (s : Store)
    (request : RemediationUpdateRequest) : Except PyError Store :=
  match updateFault with
  | some e => Except.error (PyError.clientError e)
  | none =>
      Except.ok
        (FindingsRepository.update s request.finding_type request.finding_id
          request.remediation_status request.execution_id request.error)

/-- `create_history_with_finding_update` (Tier 2, falling to Tier 3): the
best-effort finding read (any raise inside it is caught and leaves
finding_data as None), the Tier-2 transactional write, and on a
TransactionCanceledException the Tier-3 finding-only update; every other
ClientError and any non-ClientError is re-raised. `bool(finding_data)` is
false for both None and an empty dictionary. -/
def create_history_with_finding_update (ttlDays : Int) (now : String)
    (readFault : Bool) (updateFault : Option ClientError) (s : Store)
    (request : RemediationUpdateRequest) : Except PyError Store :=
  let finding_data := get_finding_data readFault s request.finding_type request.finding_id
  let fdTruthy :=
    match finding_data with
    | some fd => !fd.isEmpty
    | none => false
  let extra_fields :=
    if fdTruthy then (finding_data.map coordinator_extra_fields) else none
  match HistoryRepository.transact_create_history_and_update_finding ttlDays now s
      request extra_fields fdTruthy with
  | Except.ok s1 => Except.ok s1
  | Except.error (PyError.clientError e) =>
      if e.code = "TransactionCanceledException" then
        update_finding_only updateFault s request
      else Except.error (PyError.clientError e)
  | Except.error e => Except.error e

/-- `update_remediation_status_and_history`: the single entry point. A
request failing validation is a silent no-op; otherwise Tier 1 runs and, when
it reports a missing history item, the create fallback runs. Errors are
logged and re-raised. -/
def update_remediation_status_and_history (ttlDays : Int) (now : String)
    (readFault : Bool) (updateFault : Option ClientError) (s : Store)
    (request : RemediationUpdateRequest) : Except PyError Store :=
  if request.validate = false then Except.ok s
  else
    match try_update_with_existing_history s request with
    | Except.error e => Except.error (PyError.clientError e)
    | Except.ok (true, s1) => Except.ok s1
    | Except.ok (false, s1) =>
        create_history_with_finding_update ttlDays now readFault updateFault s1 request

/-! ### Algebraic facts about the store model -/

theorem getItem_putItem_self (t : Table) (k : Key) (v : AttrMap) :
    (t.putItem k v).getItem k = some v := by
  induction t with
  | nil => simp [Table.putItem, Table.getItem]
  | cons hd tl ih =>
      obtain ⟨k0, v0⟩ := hd
      by_cases h : k0 = k <;> simp [Table.putItem, Table.getItem, h, ih]

theorem getItem_putItem_ne (t : Table) (k k2 : Key) (v : AttrMap) (h : k2 ≠ k) :
    (t.putItem k v).getItem k2 = t.getItem k2 := by
  induction t with
  | nil => simp [Table.putItem, Table.getItem, Ne.symm h]
  | cons hd tl ih =>
      obtain ⟨k0, v0⟩ := hd
      by_cases h0 : k0 = k
      · subst h0
        simp [Table.putItem, Table.getItem, Ne.symm h]
      · simp only [Table.putItem, if_neg h0]
        by_cases h2 : k0 = k2 <;> simp [Table.getItem, h2, ih]

theorem keyCount_putItem_self (t : Table) (k : Key) (v : AttrMap) :
    (t.putItem k v).keyCount k = if t.keyCount k = 0 then 1 else t.keyCount k := by
  induction t with
  | nil => simp [Table.putItem, Table.keyCount]
  | cons hd tl ih =>
      obtain ⟨k0, v0⟩ := hd
      by_cases h : k0 = k
      · subst h
        simp [Table.putItem, Table.keyCount]
      · simp [Table.putItem, Table.keyCount, h, ih]

theorem getItem_none_iff_keyCount_zero (t : Table) (k : Key) :
    t.getItem k = none ↔ t.keyCount k = 0 := by
  induction t with
  | nil => simp [Table.getItem, Table.keyCount]
  | cons hd tl ih =>
      obtain ⟨k0, v0⟩ := hd
      by_cases h : k0 = k <;> simp [Table.getItem, Table.keyCount, h, ih]

theorem getAttr_setAttr_self (m : AttrMap) (k : String) (v : AttrVal) :
    getAttr (setAttr m k v) k = some v := by
  induction m with
  | nil => simp [setAttr, getAttr]
  | cons hd tl ih =>
      obtain ⟨k0, v0⟩ := hd
      by_cases h : k0 = k <;> simp [setAttr, getAttr, h, ih]

theorem getAttr_setAttr_ne (m : AttrMap) (k k2 : String) (v : AttrVal) (h : k2 ≠ k) :
    getAttr (setAttr m k v) k2 = getAttr m k2 := by
  induction m with
  | nil => simp [setAttr, getAttr, Ne.symm h]
  | cons hd tl ih =>
      obtain ⟨k0, v0⟩ := hd
      by_cases h0 : k0 = k
      · subst h0
        simp [setAttr, getAttr, Ne.symm h]
      · simp only [setAttr, if_neg h0]
        by_cases h2 : k0 = k2 <;> simp [getAttr, h2, ih]

theorem getAttr_applyAssignments_notMem (assigns : List (String × AttrVal))
    (m : AttrMap) (k : String) (h : ∀ kv ∈ assigns, kv.1 ≠ k) :
    getAttr (applyAssignments m assigns) k = getAttr m k := by
  induction assigns generalizing m with
  | nil => rfl
  | cons hd tl ih =>
      have hhd : hd.1 ≠ k := h hd (List.mem_cons_self hd tl)
      have htl : ∀ kv ∈ tl, kv.1 ≠ k := fun kv hkv => h kv (List.mem_cons_of_mem hd hkv)
      calc getAttr (applyAssignments (setAttr m hd.1 hd.2) tl) k
          = getAttr (setAttr m hd.1 hd.2) k := ih (setAttr m hd.1 hd.2) htl
        _ = getAttr m k := getAttr_setAttr_ne m hd.1 k hd.2 (fun hk => hhd hk.symm)

theorem getAttr_applyStrFields_notMem (fields : List (String × String))
    (item : AttrMap) (k : String) (h : ∀ kv ∈ fields, kv.1 ≠ k) :
    getAttr (applyStrFields item fields) k = getAttr item k := by
  induction fields generalizing item with
  | nil => rfl
  | cons hd tl ih =>
      have hhd : hd.1 ≠ k := h hd (List.mem_cons_self hd tl)
      have htl : ∀ kv ∈ tl, kv.1 ≠ k := fun kv hkv => h kv (List.mem_cons_of_mem hd hkv)
      calc getAttr (applyStrFields (setAttr item hd.1 (AttrVal.S hd.2)) tl) k
          = getAttr (setAttr item hd.1 (AttrVal.S hd.2)) k := ih _ htl
        _ = getAttr item k := getAttr_setAttr_ne _ _ _ _ (fun hk => hhd hk.symm)

theorem getAttr_condSets_notMem (pairs : List (String × Option String))
    (item : AttrMap) (k : String) (h : ∀ kv ∈ pairs, kv.1 ≠ k) :
    getAttr (condSets item pairs) k = getAttr item k := by
  induction pairs generalizing item with
  | nil => rfl
  | cons hd tl ih =>
      have hhd : hd.1 ≠ k := h hd (List.mem_cons_self hd tl)
      have htl : ∀ kv ∈ tl, kv.1 ≠ k := fun kv hkv => h kv (List.mem_cons_of_mem hd hkv)
      obtain ⟨k0, v0⟩ := hd
      by_cases ht : truthy v0
      · simp only [condSets, if_pos ht]
        rw [ih _ htl, getAttr_setAttr_ne _ _ _ _ (Ne.symm hhd)]
      · simp only [condSets, if_neg ht]
        exact ih _ htl

theorem extractFields_keys (fs : List String) (item : AttrMap)
    (r : List (String × String)) (h : extractFields fs item = some r) :
    ∀ kv ∈ r, kv.1 ∈ fs := by
  induction fs generalizing r with
  | nil =>
      simp only [extractFields, Option.some.injEq] at h
      subst h
      simp
  | cons f fs ih =>
      intro kv hkv
      rcases hG : getAttr item f with _ | v
      · simp only [extractFields, hG] at h
        exact List.mem_cons_of_mem f (ih r h kv hkv)
      · cases v with
        | S s =>
            simp only [extractFields, hG] at h
            rcases hr : extractFields fs item with _ | r0
            · simp [hr] at h
            · simp only [hr, Option.map_some'] at h
              injection h with h
              subst h
              rcases List.mem_cons.mp hkv with h1 | h2
              · subst h1
                exact List.mem_cons_self f fs
              · exact List.mem_cons_of_mem f (ih r0 hr kv h2)
        | N n =>
            simp only [extractFields, hG] at h
            cases h

theorem coordinator_extra_fields_keys (item : AttrMap) (fd : List (String × String))
    (h : extractPartialFindingData item = some fd) :
    ∀ kv ∈ coordinator_extra_fields fd, kv.1 = "resourceTypeNormalized" := by
  intro kv hkv
  have hmem : kv ∈ fd ∧ kv.1 ∉ ["accountId", "resourceId", "resourceType",
      "severity", "region", "lastUpdatedBy"] := by
    simpa [coordinator_extra_fields] using hkv
  have hfm : kv.1 ∈ field_mappings := extractFields_keys field_mappings item fd h kv hmem.1
  have hnot := hmem.2
  simp only [field_mappings, List.mem_cons, List.not_mem_nil, List.mem_singleton] at hfm
  simp only [List.mem_cons, List.not_mem_nil, List.mem_singleton] at hnot
  rcases hfm with h1 | h1 | h1 | h1 | h1 | h1 | h1 <;> simp [h1] at hnot ⊢

theorem getAttr_condSets_mem (pairs : List (String × Option String)) (item : AttrMap)
    (k : String) (o : Option String) (hmem : (k, o) ∈ pairs)
    (hnd : (pairs.map Prod.fst).Nodup) :
    getAttr (condSets item pairs) k =
      if truthy o then some (AttrVal.S (o.getD "")) else getAttr item k := by
  induction pairs generalizing item with
  | nil => cases hmem
  | cons hd tl ih =>
      obtain ⟨k0, v0⟩ := hd
      have hnd2 := hnd
      simp only [List.map_cons, List.nodup_cons] at hnd2
      obtain ⟨hk0nl, hndtl⟩ := hnd2
      rcases List.mem_cons.mp hmem with h1 | h2
      · cases h1
        have hknotl : ∀ kv ∈ tl, kv.1 ≠ k :=
          fun kv hkv heq => hk0nl (heq ▸ List.mem_map_of_mem Prod.fst hkv)
        simp only [condSets]
        by_cases ht : truthy o
        · rw [if_pos ht, getAttr_condSets_notMem tl _ k hknotl, getAttr_setAttr_self,
            if_pos ht]
        · rw [if_neg ht, getAttr_condSets_notMem tl _ k hknotl, if_neg ht]
      · have hk0 : k ≠ k0 := by
          intro hkk
          exact hk0nl (hkk ▸ List.mem_map_of_mem Prod.fst h2)
        simp only [condSets]
        by_cases ht : truthy v0
        · rw [if_pos ht, ih _ h2 hndtl, getAttr_setAttr_ne _ _ _ _ hk0]
        · rw [if_neg ht]
          exact ih _ h2 hndtl

/-- The extra-field lists the coordinator can feed into build_create_item:
every key is "resourceTypeNormalized" (the only harvested field outside the
six filtered-out named ones). -/
def extraTame (e : Option (List (String × String))) : Prop :=
  ∀ l, e = some l → ∀ kv ∈ l, kv.1 = "resourceTypeNormalized"

theorem extraTame_none : extraTame none := by
  intro l hl
  cases hl

theorem extraTame_coordinator (item : AttrMap) (fd : List (String × String))
    (h : extractPartialFindingData item = some fd) :
    extraTame (some (coordinator_extra_fields fd)) := by
  intro l hl
  injection hl with hl
  subst hl
  exact coordinator_extra_fields_keys item fd h


theorem build_create_item_eq (ttlDays : Int) (now : String)
    (request : RemediationUpdateRequest) (e : Option (List (String × String)))
    (ttl : Int) (hp : calculate_ttl_timestamp ttlDays now = some ttl) :
    HistoryRepository.build_create_item ttlDays now request e
      = some (WriteItem.put
          ⟨TableName.history, historyCreateItem ttl now request e,
            CondExpr.attrNotExists⟩) := by
  simp only [HistoryRepository.build_create_item, hp]

theorem getAttr_historyCreateItem_tame (ttl : Int) (now : String)
    (request : RemediationUpdateRequest) (e : Option (List (String × String)))
    (he : extraTame e) (k : String) (hk : k ≠ "resourceTypeNormalized") :
    getAttr (historyCreateItem ttl now request e) k
      = getAttr (historyItemNoExtra ttl now request) k := by
  cases e with
  | none => rfl
  | some efs =>
      exact getAttr_applyStrFields_notMem efs _ k
        (fun kv hkv => by rw [he efs rfl kv hkv]; exact Ne.symm hk)

theorem historyCreateItem_findingType (ttl : Int) (now : String)
    (request : RemediationUpdateRequest) (e : Option (List (String × String)))
    (he : extraTame e) :
    getAttr (historyCreateItem ttl now request e) "findingType"
      = some (AttrVal.S request.finding_type) := by
  rw [getAttr_historyCreateItem_tame ttl now request e he _ (by decide),
    historyItemNoExtra, getAttr_condSets_notMem _ _ _ (by simp [optionalAttrPairs])]
  simp [historyBaseItem, getAttr]

theorem historyCreateItem_findingId (ttl : Int) (now : String)
    (request : RemediationUpdateRequest) (e : Option (List (String × String)))
    (he : extraTame e) :
    getAttr (historyCreateItem ttl now request e) "findingId"
      = some (AttrVal.S request.finding_id) := by
  rw [getAttr_historyCreateItem_tame ttl now request e he _ (by decide),
    historyItemNoExtra, getAttr_condSets_notMem _ _ _ (by simp [optionalAttrPairs])]
  simp [historyBaseItem, getAttr]

theorem historyCreateItem_sortKey (ttl : Int) (now : String)
    (request : RemediationUpdateRequest) (e : Option (List (String × String)))
    (he : extraTame e) :
    getAttr (historyCreateItem ttl now request e) "findingId#executionId"
      = some (AttrVal.S (sortKeyOf request.finding_id request.execution_id)) := by
  rw [getAttr_historyCreateItem_tame ttl now request e he _ (by decide),
    historyItemNoExtra, getAttr_condSets_notMem _ _ _ (by simp [optionalAttrPairs])]
  simp [historyBaseItem, getAttr]

theorem historyCreateItem_executionId (ttl : Int) (now : String)
    (request : RemediationUpdateRequest) (e : Option (List (String × String)))
    (he : extraTame e) :
    getAttr (historyCreateItem ttl now request e) "executionId"
      = some (AttrVal.S request.execution_id) := by
  rw [getAttr_historyCreateItem_tame ttl now request e he _ (by decide),
    historyItemNoExtra, getAttr_condSets_notMem _ _ _ (by simp [optionalAttrPairs])]
  simp [historyBaseItem, getAttr]

theorem historyCreateItem_status (ttl : Int) (now : String)
    (request : RemediationUpdateRequest) (e : Option (List (String × String)))
    (he : extraTame e) :
    getAttr (historyCreateItem ttl now request e) "remediationStatus"
      = some (AttrVal.S request.remediation_status) := by
  rw [getAttr_historyCreateItem_tame ttl now request e he _ (by decide),
    historyItemNoExtra, getAttr_condSets_notMem _ _ _ (by simp [optionalAttrPairs])]
  simp [historyBaseItem, getAttr]

theorem historyCreateItem_lastUpdatedTime (ttl : Int) (now : String)
    (request : RemediationUpdateRequest) (e : Option (List (String × String)))
    (he : extraTame e) :
    getAttr (historyCreateItem ttl now request e) "lastUpdatedTime"
      = some (AttrVal.S now) := by
  rw [getAttr_historyCreateItem_tame ttl now request e he _ (by decide),
    historyItemNoExtra, getAttr_condSets_notMem _ _ _ (by simp [optionalAttrPairs])]
  simp [historyBaseItem, getAttr]

theorem historyCreateItem_lastUpdatedBy (ttl : Int) (now : String)
    (request : RemediationUpdateRequest) (e : Option (List (String × String)))
    (he : extraTame e) :
    getAttr (historyCreateItem ttl now request e) "lastUpdatedBy"
      = some (AttrVal.S (pyOr request.lastUpdatedBy "Automated")) := by
  rw [getAttr_historyCreateItem_tame ttl now request e he _ (by decide),
    historyItemNoExtra, getAttr_condSets_notMem _ _ _ (by simp [optionalAttrPairs])]
  simp [historyBaseItem, getAttr]

theorem historyCreateItem_expireAt (ttl : Int) (now : String)
    (request : RemediationUpdateRequest) (e : Option (List (String × String)))
    (he : extraTame e) :
    getAttr (historyCreateItem ttl now request e) "expireAt"
      = some (AttrVal.N (toString ttl)) := by
  rw [getAttr_historyCreateItem_tame ttl now request e he _ (by decide),
    historyItemNoExtra, getAttr_condSets_notMem _ _ _ (by simp [optionalAttrPairs])]
  simp [historyBaseItem, getAttr]

theorem historyCreateItem_accountId (ttl : Int) (now : String)
    (request : RemediationUpdateRequest) (e : Option (List (String × String)))
    (he : extraTame e) :
    getAttr (historyCreateItem ttl now request e) "accountId"
      = (if truthy request.account_id
         then some (AttrVal.S (request.account_id.getD "")) else none) := by
  rw [getAttr_historyCreateItem_tame ttl now request e he _ (by decide),
    historyItemNoExtra,
    getAttr_condSets_mem _ _ _ request.account_id (by simp [optionalAttrPairs])
      (by simp [optionalAttrPairs])]
  simp [historyBaseItem, getAttr]

theorem historyCreateItem_resourceId (ttl : Int) (now : String)
    (request : RemediationUpdateRequest) (e : Option (List (String × String)))
    (he : extraTame e) :
    getAttr (historyCreateItem ttl now request e) "resourceId"
      = (if truthy request.resource_id
         then some (AttrVal.S (request.resource_id.getD "")) else none) := by
  rw [getAttr_historyCreateItem_tame ttl now request e he _ (by decide),
    historyItemNoExtra,
    getAttr_condSets_mem _ _ _ request.resource_id (by simp [optionalAttrPairs])
      (by simp [optionalAttrPairs])]
  simp [historyBaseItem, getAttr]

theorem historyCreateItem_resourceType (ttl : Int) (now : String)
    (request : RemediationUpdateRequest) (e : Option (List (String × String)))
    (he : extraTame e) :
    getAttr (historyCreateItem ttl now request e) "resourceType"
      = (if truthy request.resource_type
         then some (AttrVal.S (request.resource_type.getD "")) else none) := by
  rw [getAttr_historyCreateItem_tame ttl now request e he _ (by decide),
    historyItemNoExtra,
    getAttr_condSets_mem _ _ _ request.resource_type (by simp [optionalAttrPairs])
      (by simp [optionalAttrPairs])]
  simp [historyBaseItem, getAttr]

theorem historyCreateItem_severity (ttl : Int) (now : String)
    (request : RemediationUpdateRequest) (e : Option (List (String × String)))
    (he : extraTame e) :
    getAttr (historyCreateItem ttl now request e) "severity"
      = (if truthy request.severity
         then some (AttrVal.S (request.severity.getD "")) else none) := by
  rw [getAttr_historyCreateItem_tame ttl now request e he _ (by decide),
    historyItemNoExtra,
    getAttr_condSets_mem _ _ _ request.severity (by simp [optionalAttrPairs])
      (by simp [optionalAttrPairs])]
  simp [historyBaseItem, getAttr]

theorem historyCreateItem_region (ttl : Int) (now : String)
    (request : RemediationUpdateRequest) (e : Option (List (String × String)))
    (he : extraTame e) :
    getAttr (historyCreateItem ttl now request e) "region"
      = (if truthy request.region
         then some (AttrVal.S (request.region.getD "")) else none) := by
  rw [getAttr_historyCreateItem_tame ttl now request e he _ (by decide),
    historyItemNoExtra,
    getAttr_condSets_mem _ _ _ request.region (by simp [optionalAttrPairs])
      (by simp [optionalAttrPairs])]
  simp [historyBaseItem, getAttr]

theorem historyCreateItem_error (ttl : Int) (now : String)
    (request : RemediationUpdateRequest) (e : Option (List (String × String)))
    (he : extraTame e) :
    getAttr (historyCreateItem ttl now request e) "error"
      = (if truthy request.error
         then some (AttrVal.S (request.error.getD "")) else none) := by
  rw [getAttr_historyCreateItem_tame ttl now request e he _ (by decide),
    historyItemNoExtra,
    getAttr_condSets_mem _ _ _ request.error (by simp [optionalAttrPairs])
      (by simp [optionalAttrPairs])]
  simp [historyBaseItem, getAttr]

theorem historyCreateItem_wkey (ttl : Int) (now : String)
    (request : RemediationUpdateRequest) (e : Option (List (String × String)))
    (he : extraTame e) :
    WriteItem.wkey (WriteItem.put
        ⟨TableName.history, historyCreateItem ttl now request e, CondExpr.attrNotExists⟩)
      = histKey request := by
  simp only [WriteItem.wkey, keyAttrNames, strAttrD,
    historyCreateItem_findingType ttl now request e he,
    historyCreateItem_sortKey ttl now request e he, histKey]

/-- The SET assignments a write carries (empty for a Put). -/
def WriteItem.assigns : WriteItem → List (String × AttrVal)
  | WriteItem.update u => u.assignments
  | WriteItem.put _ => []

theorem finding_update_item_shape (ft fid rs eid : String) (err : Option String) :
    ∃ a, FindingsRepository.build_update_item ft fid rs eid err
      = WriteItem.update ⟨TableName.findings, (ft, fid), a, CondExpr.noCond⟩ :=
  ⟨_, rfl⟩

theorem history_update_item_shape (fid eid rs ft : String) (err : Option String) :
    ∃ a, HistoryRepository.build_update_item fid eid rs ft err
        = WriteItem.update
            ⟨TableName.history, (ft, sortKeyOf fid eid), a, CondExpr.attrExists⟩
      ∧ ∀ m : AttrMap,
          getAttr (applyAssignments m a) "remediationStatus" = some (AttrVal.S rs) := by
  refine ⟨_, rfl, ?_⟩
  intro m
  by_cases ht : truthy err
  · rw [if_pos ht]
    show getAttr
        (setAttr (setAttr m "remediationStatus" (AttrVal.S rs)) "error"
          (AttrVal.S (err.getD ""))) "remediationStatus" = some (AttrVal.S rs)
    rw [getAttr_setAttr_ne _ _ _ _ (by decide), getAttr_setAttr_self]
  · rw [if_neg ht]
    show getAttr (setAttr m "remediationStatus" (AttrVal.S rs)) "remediationStatus"
        = some (AttrVal.S rs)
    rw [getAttr_setAttr_self]

theorem applyWrite_update_history_some (s : Store) (k : Key)
    (a : List (String × AttrVal)) (c : CondExpr) (m : AttrMap)
    (h : Table.getItem s.history k = some m) :
    applyWrite s (WriteItem.update ⟨TableName.history, k, a, c⟩)
      = ⟨s.findings, s.history.putItem k (applyAssignments m a)⟩ := by
  simp only [applyWrite, Store.getTable, h, Store.setTable]

theorem applyWrite_update_findings_frame (s : Store) (k : Key)
    (a : List (String × AttrVal)) (c : CondExpr) :
    (applyWrite s (WriteItem.update ⟨TableName.findings, k, a, c⟩)).history
      = s.history := by
  simp only [applyWrite, Store.getTable, Store.setTable]

theorem condHolds_finding_update (s : Store) (ft fid rs eid : String)
    (err : Option String) :
    condHolds s (FindingsRepository.build_update_item ft fid rs eid err) = true := rfl

theorem condHolds_history_update (s : Store) (fid eid rs ft : String)
    (err : Option String) :
    condHolds s (HistoryRepository.build_update_item fid eid rs ft err)
      = (Table.getItem s.history (ft, sortKeyOf fid eid)).isSome := rfl

/-- Tier 1 when the History item is missing: the transaction is cancelled
with reasons ["None", "ConditionalCheckFailed"] (the unconditional Finding
update first, the failed History condition second) and the error handler
elects the fallback, leaving the store unchanged. -/
theorem try_update_miss (s : Store) (r : RemediationUpdateRequest)
    (h : Table.getItem s.history (histKey r) = none) :
    try_update_with_existing_history s r = Except.ok (false, s) := by
  have h2 : Table.getItem s.history
      (r.finding_type, sortKeyOf r.finding_id r.execution_id) = none := h
  have hall : (HistoryRepository.transact_update_items r.finding_type r.finding_id
      r.execution_id r.remediation_status r.error).all (fun w => condHolds s w)
        = false := by
    simp only [HistoryRepository.transact_update_items, List.all_cons, List.all_nil,
      condHolds_finding_update, condHolds_history_update, h2]
    rfl
  have hmap : (HistoryRepository.transact_update_items r.finding_type r.finding_id
      r.execution_id r.remediation_status r.error).map
        (fun w => if condHolds s w then "None" else "ConditionalCheckFailed")
      = ["None", "ConditionalCheckFailed"] := by
    simp only [HistoryRepository.transact_update_items, List.map_cons, List.map_nil,
      condHolds_finding_update, condHolds_history_update, h2]
    rfl
  simp only [try_update_with_existing_history,
    HistoryRepository.transact_update_finding_and_history, transact_write_items, hall,
    hmap, Bool.false_eq_true, if_false, tier1_error_decision]
  rfl

/-- Tier 1 when the History item exists: the dual update commits; the History
table gains the updated item at the same key and its remediationStatus is the
request status. -/
theorem try_update_hit (s : Store) (r : RemediationUpdateRequest) (m : AttrMap)
    (h : Table.getItem s.history (histKey r) = some m) :
    ∃ ftab hm,
      try_update_with_existing_history s r
          = Except.ok (true, ⟨ftab, s.history.putItem (histKey r) hm⟩)
        ∧ getAttr hm "remediationStatus" = some (AttrVal.S r.remediation_status) := by
  obtain ⟨a, ha, hst⟩ := history_update_item_shape r.finding_id r.execution_id
    r.remediation_status r.finding_type r.error
  have h2 : Table.getItem s.history
      (r.finding_type, sortKeyOf r.finding_id r.execution_id) = some m := h
  have hall : (HistoryRepository.transact_update_items r.finding_type r.finding_id
      r.execution_id r.remediation_status r.error).all (fun w => condHolds s w)
        = true := by
    simp only [HistoryRepository.transact_update_items, List.all_cons, List.all_nil,
      condHolds_finding_update, condHolds_history_update, h2]
    rfl
  set fu := FindingsRepository.build_update_item r.finding_type r.finding_id
    r.remediation_status r.execution_id r.error with hfu
  have hs1hist : (applyWrite s fu).history = s.history := by
    obtain ⟨afu, hafu⟩ := finding_update_item_shape r.finding_type r.finding_id
      r.remediation_status r.execution_id r.error
    rw [hfu, hafu]
    exact applyWrite_update_findings_frame s (r.finding_type, r.finding_id) afu
      CondExpr.noCond
  have hget1 : Table.getItem (applyWrite s fu).history
      (r.finding_type, sortKeyOf r.finding_id r.execution_id) = some m := by
    rw [hs1hist]
    exact h2
  have hfold : (HistoryRepository.transact_update_items r.finding_type r.finding_id
        r.execution_id r.remediation_status r.error).foldl applyWrite s
      = ⟨(applyWrite s fu).findings,
         (applyWrite s fu).history.putItem
           (r.finding_type, sortKeyOf r.finding_id r.execution_id)
           (applyAssignments m a)⟩ := by
    simp only [HistoryRepository.transact_update_items, List.foldl_cons, List.foldl_nil,
      ← hfu, ha]
    exact applyWrite_update_history_some (applyWrite s fu)
      (r.finding_type, sortKeyOf r.finding_id r.execution_id) a CondExpr.attrExists m
      hget1
  refine ⟨(applyWrite s fu).findings, applyAssignments m a, ?_, hst m⟩
  simp only [try_update_with_existing_history,
    HistoryRepository.transact_update_finding_and_history, transact_write_items, hall,
    if_true, hfold, hs1hist]
  rfl

theorem applyWrite_put_history (s : Store) (itm : AttrMap) (c : CondExpr) :
    applyWrite s (WriteItem.put ⟨TableName.history, itm, c⟩)
      = ⟨s.findings,
         s.history.putItem
           (WriteItem.wkey (WriteItem.put ⟨TableName.history, itm, c⟩)) itm⟩ := rfl

theorem condHolds_put_history_notExists (s : Store) (itm : AttrMap) :
    condHolds s (WriteItem.put ⟨TableName.history, itm, CondExpr.attrNotExists⟩)
      = (Table.getItem s.history
          (WriteItem.wkey
            (WriteItem.put ⟨TableName.history, itm, CondExpr.attrNotExists⟩))).isNone :=
  rfl

theorem get_finding_data_extract (readFault : Bool) (s : Store) (ft fid : String)
    (fd : List (String × String))
    (h : get_finding_data readFault s ft fid = some fd) :
    ∃ item, extractPartialFindingData item = some fd := by
  cases readFault with
  | true => simp [get_finding_data, FindingsRepository.get] at h
  | false =>
      rcases hg : Table.getItem s.findings (ft, fid) with _ | item
      · simp [get_finding_data, FindingsRepository.get, hg] at h
      · simp only [get_finding_data, FindingsRepository.get, Bool.false_eq_true,
          if_false, hg] at h
        by_cases he : item.isEmpty
        · simp [he] at h
        · simp only [he, if_false] at h
          exact ⟨item, h⟩

/-- Tier 2 when the History item is absent: the conditional create commits
(with the Finding update included exactly when finding metadata was
harvested), adding the built item at the request key. -/
theorem create_history_miss (ttlDays : Int) (now : String) (readFault : Bool)
    (uf : Option ClientError) (s : Store) (r : RemediationUpdateRequest) (ttl : Int)
    (hp : calculate_ttl_timestamp ttlDays now = some ttl)
    (habs : Table.getItem s.history (histKey r) = none) :
    ∃ ftab e, extraTame e ∧
      create_history_with_finding_update ttlDays now readFault uf s r
        = Except.ok ⟨ftab, s.history.putItem (histKey r) (historyCreateItem ttl now r e)⟩ := by
  have hci : ∀ e : Option (List (String × String)), extraTame e →
      ∀ keep : Bool,
      HistoryRepository.transact_create_history_and_update_finding ttlDays now s r e keep
        = Except.ok ⟨(if keep then
              (applyWrite s (FindingsRepository.build_update_item r.finding_type
                r.finding_id r.remediation_status r.execution_id r.error)).findings
            else s.findings),
            s.history.putItem (histKey r) (historyCreateItem ttl now r e)⟩ := by
    intro e he keep
    have hwk := historyCreateItem_wkey ttl now r e he
    cases keep with
    | false =>
        have hcond : condHolds s (WriteItem.put
            ⟨TableName.history, historyCreateItem ttl now r e, CondExpr.attrNotExists⟩)
              = true := by
          rw [condHolds_put_history_notExists, hwk, habs]
          rfl
        simp only [HistoryRepository.transact_create_history_and_update_finding,
          build_create_item_eq ttlDays now r e ttl hp, Bool.false_eq_true, if_false,
          List.nil_append, transact_write_items, List.all_cons, List.all_nil, hcond,
          Bool.and_true, if_true, List.foldl_cons, List.foldl_nil,
          applyWrite_put_history, hwk]
    | true =>
        set fu := FindingsRepository.build_update_item r.finding_type r.finding_id
          r.remediation_status r.execution_id r.error with hfu
        have hs1hist : (applyWrite s fu).history = s.history := by
          obtain ⟨afu, hafu⟩ := finding_update_item_shape r.finding_type r.finding_id
            r.remediation_status r.execution_id r.error
          rw [hfu, hafu]
          exact applyWrite_update_findings_frame s (r.finding_type, r.finding_id) afu
            CondExpr.noCond
        have hcond : condHolds s (WriteItem.put
            ⟨TableName.history, historyCreateItem ttl now r e, CondExpr.attrNotExists⟩)
              = true := by
          rw [condHolds_put_history_notExists, hwk, habs]
          rfl
        have hfold : List.foldl applyWrite s [fu, WriteItem.put
              ⟨TableName.history, historyCreateItem ttl now r e, CondExpr.attrNotExists⟩]
            = ⟨(applyWrite s fu).findings,
               s.history.putItem (histKey r) (historyCreateItem ttl now r e)⟩ := by
          simp only [List.foldl_cons, List.foldl_nil, applyWrite_put_history, hwk,
            hs1hist]
        simp only [HistoryRepository.transact_create_history_and_update_finding,
          build_create_item_eq ttlDays now r e ttl hp, if_true, List.cons_append,
          List.nil_append, transact_write_items, List.all_cons, List.all_nil,
          condHolds_finding_update, ← hfu, hcond, Bool.and_true, Bool.true_and, if_true,
          hfold]
        rw [hfu]
        simp only [condHolds_finding_update, if_true]
  rcases hfd : get_finding_data readFault s r.finding_type r.finding_id with _ | fd
  · refine ⟨s.findings, none, extraTame_none, ?_⟩
    simp only [create_history_with_finding_update, hfd,
      hci none extraTame_none false, Bool.false_eq_true, if_false]
  · by_cases hemp : fd.isEmpty
    · refine ⟨s.findings, none, extraTame_none, ?_⟩
      simp only [create_history_with_finding_update, hfd, hemp,
        Bool.not_true, Bool.false_eq_true, if_false,
        hci none extraTame_none false]
    · obtain ⟨item0, hitem0⟩ := get_finding_data_extract readFault s r.finding_type
        r.finding_id fd hfd
      have htame := extraTame_coordinator item0 fd hitem0
      refine ⟨(applyWrite s (FindingsRepository.build_update_item r.finding_type
        r.finding_id r.remediation_status r.execution_id r.error)).findings,
        some (coordinator_extra_fields fd), htame, ?_⟩
      have hnemp : (!fd.isEmpty) = true := by
        simp [hemp]
      simp only [create_history_with_finding_update, hfd, hnemp, if_true,
        Option.map_some', hci (some (coordinator_extra_fields fd)) htame true]

/-- Tier 2 when the History item already exists: the conditional create is
cancelled and the engine falls to the Tier-3 finding-only update. -/
theorem create_history_hit_tier3 (ttlDays : Int) (now : String) (readFault : Bool)
    (uf : Option ClientError) (s : Store) (r : RemediationUpdateRequest) (ttl : Int)
    (hp : calculate_ttl_timestamp ttlDays now = some ttl)
    (hpresent : (Table.getItem s.history (histKey r)).isSome = true) :
    create_history_with_finding_update ttlDays now readFault uf s r
      = update_finding_only uf s r := by
  have hci : ∀ e : Option (List (String × String)), extraTame e →
      ∀ keep : Bool, ∃ reasons,
      HistoryRepository.transact_create_history_and_update_finding ttlDays now s r e keep
        = Except.error (PyError.clientError
            ⟨"TransactionCanceledException", reasons⟩) := by
    intro e he keep
    have hwk := historyCreateItem_wkey ttl now r e he
    have hcond : condHolds s (WriteItem.put
        ⟨TableName.history, historyCreateItem ttl now r e, CondExpr.attrNotExists⟩)
          = false := by
      rw [condHolds_put_history_notExists, hwk]
      rcases hg : Table.getItem s.history (histKey r) with _ | m
      · rw [hg] at hpresent
        cases hpresent
      · rfl
    have hall : ((if keep then
          [FindingsRepository.build_update_item r.finding_type r.finding_id
            r.remediation_status r.execution_id r.error]
        else []) ++ [WriteItem.put
          ⟨TableName.history, historyCreateItem ttl now r e,
            CondExpr.attrNotExists⟩]).all (fun w => condHolds s w) = false := by
      cases keep <;>
        simp [List.all_append, List.all_cons, List.all_nil, hcond]
    refine ⟨((if keep then
        [FindingsRepository.build_update_item r.finding_type r.finding_id
          r.remediation_status r.execution_id r.error]
      else []) ++ [WriteItem.put
        ⟨TableName.history, historyCreateItem ttl now r e,
          CondExpr.attrNotExists⟩]).map
        (fun w => if condHolds s w then "None" else "ConditionalCheckFailed"), ?_⟩
    simp only [HistoryRepository.transact_create_history_and_update_finding,
      build_create_item_eq ttlDays now r e ttl hp, transact_write_items, hall,
      Bool.false_eq_true, if_false]
  have hfin : ∀ e : Option (List (String × String)), extraTame e → ∀ keep : Bool,
      (match HistoryRepository.transact_create_history_and_update_finding ttlDays now s
          r e keep with
        | Except.ok s1 => Except.ok s1
        | Except.error (PyError.clientError e) =>
            if e.code = "TransactionCanceledException" then
              update_finding_only uf s r
            else Except.error (PyError.clientError e)
        | Except.error e => Except.error e)
        = update_finding_only uf s r := by
    intro e he keep
    obtain ⟨reasons, hr⟩ := hci e he keep
    rw [hr]
    rfl
  rcases hfd : get_finding_data readFault s r.finding_type r.finding_id with _ | fd
  · simpa only [create_history_with_finding_update, hfd] using
      hfin none extraTame_none false
  · by_cases hemp : fd.isEmpty
    · simpa only [create_history_with_finding_update, hfd, hemp, Bool.not_true,
        Bool.false_eq_true, if_false] using hfin none extraTame_none false
    · obtain ⟨item0, hitem0⟩ := get_finding_data_extract readFault s r.finding_type
        r.finding_id fd hfd
      have htame := extraTame_coordinator item0 fd hitem0
      have hnemp : (!fd.isEmpty) = true := by
        simp [hemp]
      simpa only [create_history_with_finding_update, hfd, hnemp, if_true,
        Option.map_some'] using hfin (some (coordinator_extra_fields fd)) htame true

theorem findings_update_history_frame (s : Store) (ft fid rs eid : String)
    (err : Option String) :
    (FindingsRepository.update s ft fid rs eid err).history = s.history := by
  obtain ⟨a, ha⟩ := finding_update_item_shape ft fid rs eid err
  rw [FindingsRepository.update, ha]
  exact applyWrite_update_findings_frame s (ft, fid) a CondExpr.noCond

theorem validate_same_triple (r1 r2 : RemediationUpdateRequest)
    (h1 : r2.finding_type = r1.finding_type) (h2 : r2.finding_id = r1.finding_id)
    (h3 : r2.execution_id = r1.execution_id) :
    r2.validate = r1.validate := by
  simp [RemediationUpdateRequest.validate, h1, h2, h3]

theorem histKey_same_triple (r1 r2 : RemediationUpdateRequest)
    (h1 : r2.finding_type = r1.finding_type) (h2 : r2.finding_id = r1.finding_id)
    (h3 : r2.execution_id = r1.execution_id) :
    histKey r2 = histKey r1 := by
  simp [histKey, sortKeyOf, h1, h2, h3]

/-- One coordinator call with no pre-existing History record: succeeds and
adds the built item at the request key (Tier 1 misses, Tier 2 creates). -/
theorem update_one_miss (ttlDays : Int) (now : String) (rf : Bool)
    (uf : Option ClientError) (s : Store) (r : RemediationUpdateRequest) (ttl : Int)
    (hv : r.validate = true) (hp : calculate_ttl_timestamp ttlDays now = some ttl)
    (habs : Table.getItem s.history (histKey r) = none) :
    ∃ ftab e, extraTame e ∧
      update_remediation_status_and_history ttlDays now rf uf s r
        = Except.ok ⟨ftab, s.history.putItem (histKey r)
            (historyCreateItem ttl now r e)⟩ := by
  obtain ⟨ftab, e, he, hc⟩ := create_history_miss ttlDays now rf uf s r ttl hp habs
  refine ⟨ftab, e, he, ?_⟩
  simp only [update_remediation_status_and_history, hv, Bool.true_eq_false, if_false,
    try_update_miss s r habs]
  exact hc

/-- One coordinator call with the History record present: Tier 1 commits and
overwrites the record status in place. -/
theorem update_one_hit (ttlDays : Int) (now : String) (rf : Bool)
    (uf : Option ClientError) (s : Store) (r : RemediationUpdateRequest) (m : AttrMap)
    (hv : r.validate = true)
    (hm : Table.getItem s.history (histKey r) = some m) :
    ∃ ftab hm2,
      update_remediation_status_and_history ttlDays now rf uf s r
          = Except.ok ⟨ftab, s.history.putItem (histKey r) hm2⟩
        ∧ getAttr hm2 "remediationStatus" = some (AttrVal.S r.remediation_status) := by
  obtain ⟨ftab, hm2, hrun, hst⟩ := try_update_hit s r m hm
  refine ⟨ftab, hm2, ?_, hst⟩
  simp only [update_remediation_status_and_history, hv, Bool.true_eq_false, if_false,
    hrun]

/-! ### Claims -/

/-- C2: for every valid request, calling updateRemediationStatusAndHistory
twice with the same (findingType, findingId, executionId) triple leaves
exactly one History record in the store - the conditional create with
attribute_not_exists is the sole creation point - and after the second call
that record's remediationStatus equals the second call's status. -/
theorem C2_idempotent_single_history (ttlDays : Int) (now1 now2 : String)
    (rf : Bool) (uf : Option ClientError) (s0 : Store)
    (req1 req2 : RemediationUpdateRequest)
    (hv : req1.validate = true)
    (ht : req2.finding_type = req1.finding_type)
    (hf : req2.finding_id = req1.finding_id)
    (he : req2.execution_id = req1.execution_id)
    (hparse : (parseIsoZ now1).isSome = true)
    (hcount : Table.keyCount s0.history (histKey req1) ≤ 1) :
    ∃ s1 s2,
      update_remediation_status_and_history ttlDays now1 rf uf s0 req1 = Except.ok s1
      ∧ update_remediation_status_and_history ttlDays now2 rf uf s1 req2 = Except.ok s2
      ∧ Table.keyCount s2.history (histKey req1) = 1
      ∧ (Table.getItem s2.history (histKey req1)).bind
          (fun mm => getAttr mm "remediationStatus")
            = some (AttrVal.S req2.remediation_status) := by
  have hv2 : req2.validate = true := by
    rw [validate_same_triple req1 req2 ht hf he]
    exact hv
  have hkey : histKey req2 = histKey req1 := histKey_same_triple req1 req2 ht hf he
  rcases hg : Table.getItem s0.history (histKey req1) with _ | m
  · obtain ⟨dt, hdt⟩ := Option.isSome_iff_exists.mp hparse
    have hp : calculate_ttl_timestamp ttlDays now1
        = some (epochOf dt + ttlDays * 86400) := by
      simp [calculate_ttl_timestamp, hdt]
    obtain ⟨ftab, e, hetame, h1⟩ := update_one_miss ttlDays now1 rf uf s0 req1 _ hv hp hg
    have hc0 : Table.keyCount s0.history (histKey req1) = 0 :=
      (getItem_none_iff_keyCount_zero _ _).mp hg
    have hget1 : Table.getItem
        (⟨ftab, s0.history.putItem (histKey req1)
          (historyCreateItem (epochOf dt + ttlDays * 86400) now1 req1 e)⟩ : Store).history
        (histKey req2)
          = some (historyCreateItem (epochOf dt + ttlDays * 86400) now1 req1 e) := by
      rw [hkey]
      exact getItem_putItem_self _ _ _
    obtain ⟨ftab2, hm2, h2, hst2⟩ := update_one_hit ttlDays now2 rf uf _ req2 _ hv2 hget1
    refine ⟨_, _, h1, h2, ?_, ?_⟩
    · show Table.keyCount
        ((s0.history.putItem (histKey req1)
          (historyCreateItem (epochOf dt + ttlDays * 86400) now1 req1 e)).putItem
            (histKey req2) hm2) (histKey req1) = 1
      rw [hkey, keyCount_putItem_self, keyCount_putItem_self, hc0]
      simp
    · show (Table.getItem
        ((s0.history.putItem (histKey req1)
          (historyCreateItem (epochOf dt + ttlDays * 86400) now1 req1 e)).putItem
            (histKey req2) hm2) (histKey req1)).bind
          (fun mm => getAttr mm "remediationStatus")
            = some (AttrVal.S req2.remediation_status)
      rw [hkey, getItem_putItem_self]
      simpa using hst2
  · have hcne : Table.keyCount s0.history (histKey req1) ≠ 0 := by
      intro h0
      rw [← getItem_none_iff_keyCount_zero] at h0
      rw [h0] at hg
      cases hg
    have hc1 : Table.keyCount s0.history (histKey req1) = 1 := by
      omega
    obtain ⟨ftab1, hm1, h1, hst1⟩ := update_one_hit ttlDays now1 rf uf s0 req1 m hv hg
    have hget1 : Table.getItem
        (⟨ftab1, s0.history.putItem (histKey req1) hm1⟩ : Store).history (histKey req2)
          = some hm1 := by
      rw [hkey]
      exact getItem_putItem_self _ _ _
    obtain ⟨ftab2, hm2, h2, hst2⟩ := update_one_hit ttlDays now2 rf uf _ req2 _ hv2 hget1
    refine ⟨_, _, h1, h2, ?_, ?_⟩
    · show Table.keyCount
        ((s0.history.putItem (histKey req1) hm1).putItem (histKey req2) hm2)
          (histKey req1) = 1
      rw [hkey, keyCount_putItem_self, keyCount_putItem_self, hc1]
      simp
    · show (Table.getItem
        ((s0.history.putItem (histKey req1) hm1).putItem (histKey req2) hm2)
          (histKey req1)).bind (fun mm => getAttr mm "remediationStatus")
            = some (AttrVal.S req2.remediation_status)
      rw [hkey, getItem_putItem_self]
      simpa using hst2

/-- Witness for C2: a concrete finding, no prior history; the first call
creates the record, the second overwrites its status with SUCCESS. -/
theorem C2_idempotent_single_history_witness :
    ∃ s1 s2,
      update_remediation_status_and_history 365 "2024-01-01T00:00:00Z" false none
          ⟨[(("EC2.1", "f1"),
             [("findingType", AttrVal.S "EC2.1"), ("findingId", AttrVal.S "f1"),
              ("remediationStatus", AttrVal.S "NOT_STARTED")])], []⟩
          ⟨"f1", "e1", "IN_PROGRESS", "EC2.1", none, none, none, none, none, none,
            some "Automated"⟩ = Except.ok s1
      ∧ update_remediation_status_and_history 365 "2024-01-02T00:00:00Z" false none s1
          ⟨"f1", "e1", "SUCCESS", "EC2.1", none, none, none, none, none, none,
            some "Automated"⟩ = Except.ok s2
      ∧ Table.keyCount s2.history (histKey ⟨"f1", "e1", "IN_PROGRESS", "EC2.1", none,
          none, none, none, none, none, some "Automated"⟩) = 1
      ∧ (Table.getItem s2.history (histKey ⟨"f1", "e1", "IN_PROGRESS", "EC2.1", none,
          none, none, none, none, none, some "Automated"⟩)).bind
          (fun mm => getAttr mm "remediationStatus") = some (AttrVal.S "SUCCESS") :=
  C2_idempotent_single_history 365 "2024-01-01T00:00:00Z" "2024-01-02T00:00:00Z"
    false none _ _ _ rfl rfl rfl rfl (by decide) (by decide)

/-- C1 (amended): after a rejected Tier-1 transaction the coordinator
proceeds to Tier 2 iff the error is a TransactionCanceledException with at
least one ConditionalCheckFailed cancellation reason, at any item position;
every other error is re-raised. In the transaction as built the Finding
update carries no condition, so a cancellation always reports
["None", "ConditionalCheckFailed"]: the only conditional failure the store
can report is on the History item. -/
theorem C1_tier1_fallthrough :
    (∀ e : ClientError,
      tier1_error_decision e = some false
        ↔ (e.code = "TransactionCanceledException"
            ∧ "ConditionalCheckFailed" ∈ e.cancellationReasons))
    ∧ (∀ (s : Store) (ft fid eid rs : String) (err : Option String) (e : ClientError),
        HistoryRepository.transact_update_finding_and_history s ft fid eid rs err
            = Except.error e →
          e.code = "TransactionCanceledException"
            ∧ e.cancellationReasons = ["None", "ConditionalCheckFailed"]) := by
  constructor
  · intro e
    constructor
    · intro h
      simp only [tier1_error_decision] at h
      by_cases hcode : e.code = "TransactionCanceledException"
      · rw [if_pos hcode] at h
        by_cases hany : (e.cancellationReasons.any
            fun r => decide (r = "ConditionalCheckFailed")) = true
        · obtain ⟨x, hx, hxe⟩ := List.any_eq_true.mp hany
          exact ⟨hcode, (of_decide_eq_true hxe) ▸ hx⟩
        · rw [if_neg hany] at h
          cases h
      · rw [if_neg hcode] at h
        cases h
    · rintro ⟨hcode, hmem⟩
      simp only [tier1_error_decision]
      rw [if_pos hcode, if_pos (List.any_eq_true.mpr ⟨_, hmem, by decide⟩)]
  · intro s ft fid eid rs err e h
    rcases hg : Table.getItem s.history (ft, sortKeyOf fid eid) with _ | m
    · have hall : (HistoryRepository.transact_update_items ft fid eid rs err).all
          (fun w => condHolds s w) = false := by
        simp only [HistoryRepository.transact_update_items, List.all_cons, List.all_nil,
          condHolds_finding_update, condHolds_history_update, hg]
        rfl
      have hmap : (HistoryRepository.transact_update_items ft fid eid rs err).map
            (fun w => if condHolds s w then "None" else "ConditionalCheckFailed")
          = ["None", "ConditionalCheckFailed"] := by
        simp only [HistoryRepository.transact_update_items, List.map_cons, List.map_nil,
          condHolds_finding_update, condHolds_history_update, hg]
        rfl
      rw [HistoryRepository.transact_update_finding_and_history, transact_write_items,
        hall] at h
      simp only [Bool.false_eq_true, if_false, hmap] at h
      injection h with h
      subst h
      exact ⟨rfl, rfl⟩
    · have hall : (HistoryRepository.transact_update_items ft fid eid rs err).all
          (fun w => condHolds s w) = true := by
        simp only [HistoryRepository.transact_update_items, List.all_cons, List.all_nil,
          condHolds_finding_update, condHolds_history_update, hg]
        rfl
      rw [HistoryRepository.transact_update_finding_and_history, transact_write_items,
        hall] at h
      simp only [if_true] at h
      cases h

/-- Witness for C1: the canonical cancellation shape the store produces
(failure on the History item, second position) makes Tier 1 fall through. -/
theorem C1_tier1_fallthrough_witness :
    tier1_error_decision
        ⟨"TransactionCanceledException", ["None", "ConditionalCheckFailed"]⟩
      = some false :=
  (C1_tier1_fallthrough.1 _).mpr ⟨rfl, by decide⟩

/-- C1 counterexample: a cancellation reporting a conditional-check failure
on the Finding item alone (first position, nothing on the History item)
still makes the handler return "fall through to Tier 2" (some false) rather
than re-raising - the loop accepts ConditionalCheckFailed at any index. -/
theorem C1_counterexample :
    tier1_error_decision
        ⟨"TransactionCanceledException", ["ConditionalCheckFailed", "None"]⟩
        = some false
    ∧ tier1_error_decision
        ⟨"TransactionCanceledException", ["ConditionalCheckFailed", "None"]⟩
        ≠ none := by
  decide

/-- C3 counterexample: for createdAt 2024-01-01T00:00:00Z and retentionDays
365 the computed expiry is NOT the epoch timestamp of 2025-01-01T00:00:00Z
(2024 is a leap year: 365 days land on 2024-12-31). -/
theorem C3_counterexample :
    calculate_ttl_timestamp 365 "2024-01-01T00:00:00Z"
      ≠ (parseIsoZ "2025-01-01T00:00:00Z").map epochOf := by
  decide

/-- C3 (amended): the expiry computation is the pure function
createdAt + retentionDays * 86400 seconds (UTC), retentionDays from
configuration with fixed default 365; for createdAt 2024-01-01T00:00:00Z and
retentionDays 365 the computed expiry equals the epoch timestamp of
2024-12-31T00:00:00Z. -/
theorem C3_ttl_computation :
    (∀ (ttlDays : Int) (ts : String) (dt : DateTime), parseIsoZ ts = some dt →
      calculate_ttl_timestamp ttlDays ts = some (epochOf dt + ttlDays * 86400))
    ∧ HISTORY_TTL_DAYS_default = 365
    ∧ calculate_ttl_timestamp HISTORY_TTL_DAYS_default "2024-01-01T00:00:00Z"
        = (parseIsoZ "2024-12-31T00:00:00Z").map epochOf := by
  refine ⟨?_, rfl, by decide⟩
  intro ttlDays ts dt h
  simp [calculate_ttl_timestamp, h]

/-- Witness for C3 at a concrete timestamp. -/
theorem C3_ttl_computation_witness :
    calculate_ttl_timestamp 7 "2024-06-05T12:30:00Z"
      = some (epochOf ⟨2024, 6, 5, 12, 30, 0⟩ + 7 * 86400) :=
  C3_ttl_computation.1 7 "2024-06-05T12:30:00Z" ⟨2024, 6, 5, 12, 30, 0⟩ (by decide)

/-- C4: the status classifier is total and follows the rules in order: every
input maps to exactly one of the four canonical values and never errors;
empty or absent input maps to NOT_STARTED, a case-insensitive SUCCESS or
NOT_STARTED maps to itself, a case-insensitive QUEUED/RUNNING/IN_PROGRESS
maps to IN_PROGRESS, and everything else - whether or not it matches the
configured failure-reason set - maps to FAILED. -/
theorem C4_classifier_total (keys : List String) (status : Option String) :
    map_remediation_status keys status
        ∈ ["NOT_STARTED", "IN_PROGRESS", "SUCCESS", "FAILED"]
    ∧ ((status = none ∨ status = some "") →
        map_remediation_status keys status = "NOT_STARTED")
    ∧ (∀ st : String, status = some st → st.isEmpty = false →
        ((st.toUpper = "SUCCESS" ∨ st.toUpper = "NOT_STARTED") →
            map_remediation_status keys status = st.toUpper)
        ∧ ((st.toUpper = "QUEUED" ∨ st.toUpper = "RUNNING"
              ∨ st.toUpper = "IN_PROGRESS") →
            map_remediation_status keys status = "IN_PROGRESS")
        ∧ (st.toUpper ∉ (["SUCCESS", "NOT_STARTED", "QUEUED", "RUNNING",
              "IN_PROGRESS"] : List String) →
            map_remediation_status keys status = "FAILED")) := by
  cases status with
  | none =>
      refine ⟨by simp [map_remediation_status], fun _ => rfl, ?_⟩
      intro st hst
      cases hst
  | some st0 =>
      refine ⟨?_, ?_, ?_⟩
      · simp only [map_remediation_status]
        split_ifs with h1 h2 h3 h4
        · simp
        · rcases h2 with h | h <;> simp [h]
        · simp
        · simp
        · simp
      · intro h
        rcases h with h | h
        · cases h
        · injection h with h
          subst h
          rfl
      · intro st hst hemp
        injection hst with hst
        subst hst
        refine ⟨?_, ?_, ?_⟩
        · intro h
          rcases h with h | h <;> simp [map_remediation_status, hemp, h]
        · intro h
          rcases h with h | h | h <;> simp [map_remediation_status, hemp, h]
        · intro h
          simp only [List.mem_cons, List.not_mem_nil, or_false, not_or] at h
          obtain ⟨hS, hNS, hQ, hR, hIP⟩ := h
          simp [map_remediation_status, hemp, hS, hNS, hQ, hR, hIP]

/-- Witness for C4 at a garbage status with a sample failure-reason set. -/
theorem C4_classifier_total_witness :
    map_remediation_status ["TIMEDOUT"] (some "definitely not a status")
      ∈ ["NOT_STARTED", "IN_PROGRESS", "SUCCESS", "FAILED"] :=
  (C4_classifier_total ["TIMEDOUT"] (some "definitely not a status")).1

/-- C5: validate() is true iff findingId, executionId and findingType are all
non-empty, and a request failing validation makes
updateRemediationStatusAndHistory a silent no-op: zero store calls, the state
is returned unchanged, no error raised. -/
theorem C5_validation_gate :
    (∀ r : RemediationUpdateRequest,
      r.validate = true
        ↔ (r.finding_id ≠ "" ∧ r.execution_id ≠ "" ∧ r.finding_type ≠ ""))
    ∧ (∀ (ttlDays : Int) (now : String) (rf : Bool) (uf : Option ClientError)
        (s : Store) (r : RemediationUpdateRequest), r.validate = false →
        update_remediation_status_and_history ttlDays now rf uf s r
          = Except.ok s) := by
  constructor
  · intro r
    simp only [RemediationUpdateRequest.validate]
    by_cases h1 : r.finding_id.isEmpty
    · simp [h1, (String.isEmpty_iff _).mp h1]
      intro hcon
      exact absurd hcon (by decide)
    · by_cases h2 : r.execution_id.isEmpty
      · simp [h1, h2, (String.isEmpty_iff _).mp h2]
        intro hcon
        exact absurd hcon (by decide)
      · by_cases h3 : r.finding_type.isEmpty
        · simp [h1, h2, h3, (String.isEmpty_iff _).mp h3]
          decide
        · simp only [h1, h2, h3, Bool.or_self, Bool.or_false]
          simp [String.isEmpty_iff] at h1 h2 h3
          simp [h1, h2, h3]
  · intro ttlDays now rf uf s r h
    simp [update_remediation_status_and_history, h]

/-- Witness for C5: an empty findingId yields a silent no-op on a concrete
store. -/
theorem C5_validation_gate_witness :
    update_remediation_status_and_history 365 "2024-01-01T00:00:00Z" false none
        ⟨[], []⟩
        ⟨"", "e1", "SUCCESS", "EC2.1", none, none, none, none, none, none,
          some "Automated"⟩
      = Except.ok ⟨[], []⟩ :=
  C5_validation_gate.2 365 "2024-01-01T00:00:00Z" false none ⟨[], []⟩ _ (by decide)

/-- C6: when the Tier-2 history item merges the request fields with extra
fields carried over from the Finding record, every attribute the
request-built item supplies keeps its request-supplied value after the
merge - the carried-over fields (which the coordinator filters down before
merging) never override a request-supplied attribute. -/
theorem C6_request_precedence (ttlDays : Int) (now : String)
    (req : RemediationUpdateRequest) (item : AttrMap) (fd : List (String × String))
    (ttl : Int)
    (hfd : extractPartialFindingData item = some fd)
    (hp : calculate_ttl_timestamp ttlDays now = some ttl) :
    ∃ p p0 : PutSpec,
      HistoryRepository.build_create_item ttlDays now req
          (some (coordinator_extra_fields fd)) = some (WriteItem.put p)
      ∧ HistoryRepository.build_create_item ttlDays now req none
          = some (WriteItem.put p0)
      ∧ ∀ k : String, (getAttr p0.item k).isSome = true →
          getAttr p.item k = getAttr p0.item k := by
  refine ⟨⟨TableName.history,
      historyCreateItem ttl now req (some (coordinator_extra_fields fd)),
      CondExpr.attrNotExists⟩,
    ⟨TableName.history, historyCreateItem ttl now req none, CondExpr.attrNotExists⟩,
    build_create_item_eq ttlDays now req _ ttl hp,
    build_create_item_eq ttlDays now req none ttl hp, ?_⟩
  intro k hk
  have htame := extraTame_coordinator item fd hfd
  by_cases hkr : k = "resourceTypeNormalized"
  · subst hkr
    have hnone : getAttr (historyCreateItem ttl now req none) "resourceTypeNormalized"
        = none := by
      show getAttr (historyItemNoExtra ttl now req) "resourceTypeNormalized" = none
      rw [historyItemNoExtra,
        getAttr_condSets_notMem _ _ _ (by simp [optionalAttrPairs])]
      simp [historyBaseItem, getAttr]
    rw [hnone] at hk
    cases hk
  · rw [getAttr_historyCreateItem_tame ttl now req _ htame k hkr]
    rfl

/-- Witness for C6 at a concrete finding item whose extract carries a
resourceTypeNormalized extra field. -/
theorem C6_request_precedence_witness :
    ∃ p p0 : PutSpec,
      HistoryRepository.build_create_item 365 "2024-01-01T00:00:00Z"
          ⟨"f1", "e1", "SUCCESS", "EC2.1", none, none, none, none, none, none,
            some "Automated"⟩
          (some (coordinator_extra_fields
            [("resourceTypeNormalized", "ec2instance"), ("severity", "HIGH")]))
        = some (WriteItem.put p)
      ∧ HistoryRepository.build_create_item 365 "2024-01-01T00:00:00Z"
          ⟨"f1", "e1", "SUCCESS", "EC2.1", none, none, none, none, none, none,
            some "Automated"⟩ none
        = some (WriteItem.put p0)
      ∧ ∀ k : String, (getAttr p0.item k).isSome = true →
          getAttr p.item k = getAttr p0.item k :=
  C6_request_precedence 365 "2024-01-01T00:00:00Z" _
    [("resourceTypeNormalized", AttrVal.S "ec2instance"),
     ("severity", AttrVal.S "HIGH")]
    [("resourceTypeNormalized", "ec2instance"), ("severity", "HIGH")]
    1735603200 (by decide) (by decide)

/-- C7: the Tier-2 enrichment read is best-effort: a raised Finding lookup
degrades to absent instead of propagating, and the coordinator still issues
the Tier-2 transactional write built from only the request fields (no
finding update, no extra fields), which commits when no History record
exists. -/
theorem C7_enrichment_best_effort :
    (∀ (s : Store) (ft fid : String), FindingsRepository.get true s ft fid = none)
    ∧ (∀ (ttlDays : Int) (now : String) (uf : Option ClientError) (s : Store)
        (r : RemediationUpdateRequest) (ttl : Int),
        calculate_ttl_timestamp ttlDays now = some ttl →
        Table.getItem s.history (histKey r) = none →
        create_history_with_finding_update ttlDays now true uf s r
          = Except.ok ⟨s.findings,
              s.history.putItem (histKey r) (historyCreateItem ttl now r none)⟩) := by
  constructor
  · intro s ft fid
    rfl
  · intro ttlDays now uf s r ttl hp habs
    have hfd : get_finding_data true s r.finding_type r.finding_id = none := rfl
    have hwk := historyCreateItem_wkey ttl now r none extraTame_none
    have hcond : condHolds s (WriteItem.put
        ⟨TableName.history, historyCreateItem ttl now r none, CondExpr.attrNotExists⟩)
          = true := by
      rw [condHolds_put_history_notExists, hwk, habs]
      rfl
    simp only [create_history_with_finding_update, hfd,
      HistoryRepository.transact_create_history_and_update_finding,
      build_create_item_eq ttlDays now r none ttl hp, Bool.false_eq_true, if_false,
      List.nil_append, transact_write_items, List.all_cons, List.all_nil, hcond,
      Bool.and_true, if_true, List.foldl_cons, List.foldl_nil,
      applyWrite_put_history, hwk]

/-- Witness for C7: a faulted lookup on a concrete store still commits the
request-only history create. -/
theorem C7_enrichment_best_effort_witness :
    create_history_with_finding_update 365 "2024-01-01T00:00:00Z" true none
        ⟨[], []⟩
        ⟨"f1", "e1", "SUCCESS", "EC2.1", none, none, none, none, none, none,
          some "Automated"⟩
      = Except.ok ⟨[],
          Table.putItem [] (histKey ⟨"f1", "e1", "SUCCESS", "EC2.1", none, none, none,
            none, none, none, some "Automated"⟩)
            (historyCreateItem 1735603200 "2024-01-01T00:00:00Z"
              ⟨"f1", "e1", "SUCCESS", "EC2.1", none, none, none, none, none, none,
                some "Automated"⟩ none)⟩ :=
  C7_enrichment_best_effort.2 365 "2024-01-01T00:00:00Z" none ⟨[], []⟩ _ 1735603200
    (by decide) rfl

/-- C8: when the Tier-2 transactional write is cancelled (the History record
already exists), the coordinator falls to Tier 3, a single unconditional
non-transactional update of the Finding record only; a successful Tier-3
update never touches the History table, and any error raised there is
re-raised with no further fallback. -/
theorem C8_tier3_fallback :
    (∀ (ttlDays : Int) (now : String) (rf : Bool) (uf : Option ClientError)
        (s : Store) (r : RemediationUpdateRequest) (ttl : Int),
        calculate_ttl_timestamp ttlDays now = some ttl →
        (Table.getItem s.history (histKey r)).isSome = true →
        create_history_with_finding_update ttlDays now rf uf s r
          = update_finding_only uf s r)
    ∧ (∀ (uf : Option ClientError) (s : Store) (r : RemediationUpdateRequest)
        (s2 : Store), update_finding_only uf s r = Except.ok s2 →
          s2.history = s.history)
    ∧ (∀ (e : ClientError) (s : Store) (r : RemediationUpdateRequest),
        update_finding_only (some e) s r = Except.error (PyError.clientError e))
    ∧ (∀ (s : Store) (r : RemediationUpdateRequest),
        update_finding_only none s r
          = Except.ok (FindingsRepository.update s r.finding_type r.finding_id
              r.remediation_status r.execution_id r.error)) := by
  refine ⟨?_, ?_, ?_, ?_⟩
  · intro ttlDays now rf uf s r ttl hp hpresent
    exact create_history_hit_tier3 ttlDays now rf uf s r ttl hp hpresent
  · intro uf s r s2 h
    cases uf with
    | some e => cases h
    | none =>
        injection h with h
        subst h
        exact findings_update_history_frame s r.finding_type r.finding_id
          r.remediation_status r.execution_id r.error
  · intro e s r
    rfl
  · intro s r
    rfl

/-- Witness for C8: with a pre-existing History record, Tier 2 on a concrete
store falls through to the Tier-3 finding-only update. -/
theorem C8_tier3_fallback_witness :
    create_history_with_finding_update 365 "2024-01-01T00:00:00Z" false none
        ⟨[], [(("EC2.1", "f1#e1"), [("findingType", AttrVal.S "EC2.1")])]⟩
        ⟨"f1", "e1", "SUCCESS", "EC2.1", none, none, none, none, none, none,
          some "Automated"⟩
      = update_finding_only none
          ⟨[], [(("EC2.1", "f1#e1"), [("findingType", AttrVal.S "EC2.1")])]⟩
          ⟨"f1", "e1", "SUCCESS", "EC2.1", none, none, none, none, none, none,
            some "Automated"⟩ :=
  C8_tier3_fallback.1 365 "2024-01-01T00:00:00Z" false none
    ⟨[], [(("EC2.1", "f1#e1"), [("findingType", AttrVal.S "EC2.1")])]⟩ _ 1735603200
    (by decide) (by decide)

/-- C9: an update with an empty or absent error field produces Finding and
History update descriptors whose SET assignments never touch the error
attribute, so a previously stored error value survives the update; likewise
an empty executionId leaves the Finding record's executionId attribute
unchanged. -/
theorem C9_frame_effects :
    (∀ (ft fid rs eid : String) (err : Option String) (m : AttrMap),
      truthy err = false →
        getAttr (applyAssignments m
            ((FindingsRepository.build_update_item ft fid rs eid err).assigns)) "error"
          = getAttr m "error")
    ∧ (∀ (ft fid rs : String) (err : Option String) (m : AttrMap),
        getAttr (applyAssignments m
            ((FindingsRepository.build_update_item ft fid rs "" err).assigns))
          "executionId" = getAttr m "executionId")
    ∧ (∀ (fid eid rs ft : String) (err : Option String) (m : AttrMap),
        truthy err = false →
          getAttr (applyAssignments m
              ((HistoryRepository.build_update_item fid eid rs ft err).assigns)) "error"
            = getAttr m "error") := by
  refine ⟨?_, ?_, ?_⟩
  · intro ft fid rs eid err m ht
    apply getAttr_applyAssignments_notMem
    intro kv hkv
    simp only [FindingsRepository.build_update_item, WriteItem.assigns, ht,
      Bool.false_eq_true, if_false] at hkv
    by_cases heid : eid.isEmpty
    · simp only [heid, if_true, List.mem_singleton] at hkv
      subst hkv
      simp
    · simp only [heid, Bool.false_eq_true, if_false] at hkv
      rcases List.mem_append.mp hkv with h | h <;>
        · simp only [List.mem_singleton] at h
          subst h
          simp
  · intro ft fid rs err m
    apply getAttr_applyAssignments_notMem
    intro kv hkv
    have hemp : ("" : String).isEmpty = true := rfl
    simp only [FindingsRepository.build_update_item, WriteItem.assigns, hemp,
      if_true] at hkv
    by_cases ht : truthy err = true
    · rw [if_pos ht] at hkv
      rcases List.mem_append.mp hkv with h | h <;>
        · simp only [List.mem_singleton] at h
          subst h
          simp
    · rw [if_neg ht] at hkv
      simp only [List.mem_singleton] at hkv
      subst hkv
      simp
  · intro fid eid rs ft err m ht
    apply getAttr_applyAssignments_notMem
    intro kv hkv
    simp only [HistoryRepository.build_update_item, WriteItem.assigns, ht,
      Bool.false_eq_true, if_false, List.mem_singleton] at hkv
    subst hkv
    simp

/-- Witness for C9: a SUCCESS update without an error field leaves a stored
error attribute in place. -/
theorem C9_frame_effects_witness :
    getAttr (applyAssignments [("error", AttrVal.S "old failure")]
        ((FindingsRepository.build_update_item "EC2.1" "f1" "SUCCESS" "e1"
          none).assigns)) "error"
      = getAttr [("error", AttrVal.S "old failure")] "error" :=
  C9_frame_effects.1 "EC2.1" "f1" "SUCCESS" "e1" none
    [("error", AttrVal.S "old failure")] rfl

theorem pyOr_of_falsy (o : Option String) (d : String) (h : truthy o = false) :
    pyOr o d = d := by
  cases o with
  | none => rfl
  | some s =>
      have hs : s.isEmpty = true := by
        cases hx : s.isEmpty with
        | true => rfl
        | false => simp [truthy, hx] at h
      simp [pyOr, hs]

/-- C10: the Tier-2 create item always contains the key attributes,
executionId, remediationStatus, lastUpdatedTime, lastUpdatedBy and expireAt;
each of accountId, resourceId, resourceType, severity, region and error is
present iff the corresponding request field is non-empty; and lastUpdatedBy
falls back to the literal "Automated" when the request field is empty or
absent. Extra fields are the ones the coordinator can produce. -/
theorem C10_create_item_contents (ttlDays : Int) (now : String)
    (req : RemediationUpdateRequest) (e : Option (List (String × String))) (ttl : Int)
    (hp : calculate_ttl_timestamp ttlDays now = some ttl)
    (he : e = none ∨ ∃ item fd, extractPartialFindingData item = some fd
        ∧ e = some (coordinator_extra_fields fd)) :
    ∃ p : PutSpec,
      HistoryRepository.build_create_item ttlDays now req e = some (WriteItem.put p)
      ∧ p.cond = CondExpr.attrNotExists
      ∧ (getAttr p.item "findingType").isSome = true
      ∧ (getAttr p.item "findingId").isSome = true
      ∧ (getAttr p.item "findingId#executionId").isSome = true
      ∧ (getAttr p.item "executionId").isSome = true
      ∧ (getAttr p.item "remediationStatus").isSome = true
      ∧ (getAttr p.item "lastUpdatedTime").isSome = true
      ∧ (getAttr p.item "lastUpdatedBy").isSome = true
      ∧ (getAttr p.item "expireAt").isSome = true
      ∧ (getAttr p.item "accountId").isSome = truthy req.account_id
      ∧ (getAttr p.item "resourceId").isSome = truthy req.resource_id
      ∧ (getAttr p.item "resourceType").isSome = truthy req.resource_type
      ∧ (getAttr p.item "severity").isSome = truthy req.severity
      ∧ (getAttr p.item "region").isSome = truthy req.region
      ∧ (getAttr p.item "error").isSome = truthy req.error
      ∧ (truthy req.lastUpdatedBy = false →
          getAttr p.item "lastUpdatedBy" = some (AttrVal.S "Automated")) := by
  have htame : extraTame e := by
    rcases he with h | ⟨item, fd, hfd, hee⟩
    · subst h
      exact extraTame_none
    · subst hee
      exact extraTame_coordinator item fd hfd
  refine ⟨⟨TableName.history, historyCreateItem ttl now req e, CondExpr.attrNotExists⟩,
    build_create_item_eq ttlDays now req e ttl hp, rfl, ?_, ?_, ?_, ?_, ?_, ?_, ?_, ?_,
    ?_, ?_, ?_, ?_, ?_, ?_, ?_⟩
  · rw [historyCreateItem_findingType ttl now req e htame]
    rfl
  · rw [historyCreateItem_findingId ttl now req e htame]
    rfl
  · rw [historyCreateItem_sortKey ttl now req e htame]
    rfl
  · rw [historyCreateItem_executionId ttl now req e htame]
    rfl
  · rw [historyCreateItem_status ttl now req e htame]
    rfl
  · rw [historyCreateItem_lastUpdatedTime ttl now req e htame]
    rfl
  · rw [historyCreateItem_lastUpdatedBy ttl now req e htame]
    rfl
  · rw [historyCreateItem_expireAt ttl now req e htame]
    rfl
  · rw [historyCreateItem_accountId ttl now req e htame]
    by_cases h : truthy req.account_id <;> simp [h]
  · rw [historyCreateItem_resourceId ttl now req e htame]
    by_cases h : truthy req.resource_id <;> simp [h]
  · rw [historyCreateItem_resourceType ttl now req e htame]
    by_cases h : truthy req.resource_type <;> simp [h]
  · rw [historyCreateItem_severity ttl now req e htame]
    by_cases h : truthy req.severity <;> simp [h]
  · rw [historyCreateItem_region ttl now req e htame]
    by_cases h : truthy req.region <;> simp [h]
  · rw [historyCreateItem_error ttl now req e htame]
    by_cases h : truthy req.error <;> simp [h]
  · intro h
    rw [historyCreateItem_lastUpdatedBy ttl now req e htame, pyOr_of_falsy _ _ h]

/-- Witness for C10 at a concrete request with an empty lastUpdatedBy and a
non-empty accountId. -/
theorem C10_create_item_contents_witness :
    ∃ p : PutSpec,
      HistoryRepository.build_create_item 365 "2024-01-01T00:00:00Z"
          ⟨"f1", "e1", "SUCCESS", "EC2.1", none, none, none, some "123456789012",
            none, none, some ""⟩ none = some (WriteItem.put p)
      ∧ p.cond = CondExpr.attrNotExists
      ∧ (getAttr p.item "findingType").isSome = true
      ∧ (getAttr p.item "findingId").isSome = true
      ∧ (getAttr p.item "findingId#executionId").isSome = true
      ∧ (getAttr p.item "executionId").isSome = true
      ∧ (getAttr p.item "remediationStatus").isSome = true
      ∧ (getAttr p.item "lastUpdatedTime").isSome = true
      ∧ (getAttr p.item "lastUpdatedBy").isSome = true
      ∧ (getAttr p.item "expireAt").isSome = true
      ∧ (getAttr p.item "accountId").isSome = truthy (some "123456789012")
      ∧ (getAttr p.item "resourceId").isSome = truthy none
      ∧ (getAttr p.item "resourceType").isSome = truthy none
      ∧ (getAttr p.item "severity").isSome = truthy none
      ∧ (getAttr p.item "region").isSome = truthy none
      ∧ (getAttr p.item "error").isSome = truthy none
      ∧ (truthy (some "") = false →
          getAttr p.item "lastUpdatedBy" = some (AttrVal.S "Automated")) :=
  C10_create_item_contents 365 "2024-01-01T00:00:00Z"
    ⟨"f1", "e1", "SUCCESS", "EC2.1", none, none, none, some "123456789012", none,
      none, some ""⟩ none 1735603200 (by decide) (Or.inl rfl)
